import Mathlib

/-!
Connectivity state machine of the LwM2M client sample (`src/main.c`).

A shallow embedding of the connectivity-orchestration core of `main.c`:

* the static variables `client_state`, `reconnect`, `modem_connected_to_network`,
  `update_session_lifetime`, the semaphore `state_mutex` and the mutex `lte_mutex`
  become the fields of one record `Sys`;
* every C function of the core becomes a Lean function `Sys → Sys` (or `Sys → Option Sys`
  where the C function contains the unbounded connect-retry loop);
* every access to a shared variable and every call that leaves `main.c` is appended to
  `Sys.trace`, so that "is called exactly once", "posts the wake signal" and the lock
  discipline can be stated about the run itself;
* the results of calls that leave `main.c` (engine start, pause, resume, link connect)
  are inputs, collected in `Ext`; those of the boot-time calls of `main` (library init,
  credential store, first link connect) are collected in `BootExt`.

The board LEDs (`CONFIG_BOARD_THINGY91_NRF9160_NS`) and the conformance-testing work item
(`CONFIG_APP_LWM2M_CONFORMANCE_TESTING`) touch none of the modelled variables and are left out.
-/

namespace NceLwm2m

/-! ## Data model -/

/-- Client state machine states, `enum client_state` (main.c:77-86). -/
inductive client_state
  | START
  | CONNECTING
  | BOOTSTRAP
  | CONNECTED
  | LTE_OFFLINE
  | NETWORK_ERROR
  deriving DecidableEq, Repr

/-- Registration-engine events, `enum lwm2m_rd_client_event`: the sixteen values the `switch`
of `rd_client_event` names (main.c:455-548). -/
inductive lwm2m_rd_client_event
  | LWM2M_RD_CLIENT_EVENT_NONE
  | LWM2M_RD_CLIENT_EVENT_BOOTSTRAP_REG_FAILURE
  | LWM2M_RD_CLIENT_EVENT_BOOTSTRAP_REG_COMPLETE
  | LWM2M_RD_CLIENT_EVENT_BOOTSTRAP_TRANSFER_COMPLETE
  | LWM2M_RD_CLIENT_EVENT_REGISTRATION_FAILURE
  | LWM2M_RD_CLIENT_EVENT_REGISTRATION_COMPLETE
  | LWM2M_RD_CLIENT_EVENT_REG_TIMEOUT
  | LWM2M_RD_CLIENT_EVENT_REG_UPDATE_COMPLETE
  | LWM2M_RD_CLIENT_EVENT_DEREGISTER_FAILURE
  | LWM2M_RD_CLIENT_EVENT_DISCONNECT
  | LWM2M_RD_CLIENT_EVENT_QUEUE_MODE_RX_OFF
  | LWM2M_RD_CLIENT_EVENT_ENGINE_SUSPENDED
  | LWM2M_RD_CLIENT_EVENT_SERVER_DISABLED
  | LWM2M_RD_CLIENT_EVENT_NETWORK_ERROR
  | LWM2M_RD_CLIENT_EVENT_REG_UPDATE
  | LWM2M_RD_CLIENT_EVENT_DEREGISTER
  deriving DecidableEq, Repr

/-- Modelled from the spec: the attachment status handed to the link-monitor handler,
`enum lte_lc_nw_reg_status`, is declared in the link control library, not in the repository.
main.c names the home and the roaming value (lines 608-609, "status indicates home or roaming
registration"); the other constructors stand for the remaining statuses of the library,
which `lte_connected` does not tell apart. -/
inductive lte_lc_nw_reg_status
  | LTE_LC_NW_REG_NOT_REGISTERED
  | LTE_LC_NW_REG_REGISTERED_HOME
  | LTE_LC_NW_REG_SEARCHING
  | LTE_LC_NW_REG_REGISTRATION_DENIED
  | LTE_LC_NW_REG_UNKNOWN
  | LTE_LC_NW_REG_REGISTERED_ROAMING
  | LTE_LC_NW_REG_UICC_FAIL
  deriving DecidableEq, Repr

/-- The shared static variables of main.c (lines 86, 91, 94, 96). -/
inductive Var
  | client_state
  | reconnect
  | modem_connected_to_network
  | update_session_lifetime
  deriving DecidableEq, Repr

/-- The two credential types `reset_credentials` names (main.c:395-404). -/
inductive modem_key_mgmt_cred_type
  | MODEM_KEY_MGMT_CRED_TYPE_PSK
  | MODEM_KEY_MGMT_CRED_TYPE_IDENTITY
  deriving DecidableEq, Repr

/-- One observable operation of a run: a kernel call, an access to a shared variable, or a
call into the registration engine, the link control library, the credential store, the time
library or the boot-time libraries. -/
inductive Op
  | k_mutex_lock
  | k_mutex_unlock
  | k_sem_give
  | k_sem_take
  | read (v : Var)
  | write (v : Var)
  | lwm2m_utils_connection_manage
  | lwm2m_rd_client_start
  | lwm2m_rd_client_stop (flag : Bool)
  | lwm2m_engine_pause
  | lwm2m_engine_resume
  | lte_lc_offline
  | lte_lc_connect
  | lte_lc_lte_mode_get
  | lwm2m_utils_enable_conneval
  | k_sleep (seconds : Nat)
  | lwm2m_get_u32
  | lwm2m_set_u32 (value : Nat)
  | date_time_update_async
  | nrf_modem_lib_init
  | app_event_manager_init
  | lte_lc_register_handler
  | modem_info_init
  | modem_key_mgmt_exists (cred : modem_key_mgmt_cred_type)
  | modem_key_mgmt_delete (cred : modem_key_mgmt_cred_type)
  | lwm2m_setup
  deriving DecidableEq, Repr

/-- A kernel counting semaphore: its current count and its limit. -/
structure k_sem where
  count : Nat
  limit : Nat
  deriving DecidableEq, Repr

/-- The memory of the program: the static variables of main.c (lines 86-96), the lifetime
resource `1/<srv_obj_inst>/1` held by the engine, and the trace of operations so far.
`lte_mutex` is the lock count of the mutex: `0` means free. -/
structure Sys where
  client_state : client_state
  reconnect : Bool
  modem_connected_to_network : Bool
  update_session_lifetime : Bool
  state_mutex : k_sem
  lte_mutex : Nat
  server_lifetime : Nat
  trace : List Op
  deriving DecidableEq, Repr

/-- What the calls that leave main.c return during one driver iteration, and the two build
options the iteration reads. `lte_lc_connect` lists the results of the successive
`lte_lc_connect()` calls of `modem_connect`; `lwm2m_get_u32` and `lwm2m_set_u32` are the
results of the read and of the write of the lifetime resource (0 for success). -/
structure Ext where
  lwm2m_rd_client_start : Int
  lwm2m_engine_pause : Int
  lwm2m_engine_resume : Int
  lte_lc_connect : List Int
  CONFIG_LWM2M_CLIENT_UTILS_LTE_CONNEVAL : Bool
  CONFIG_LWM2M_ENGINE_DEFAULT_LIFETIME : Nat
  lwm2m_get_u32 : Int
  lwm2m_set_u32 : Int

/-- What the four credential-store calls of `reset_credentials` return: the error code of
each call and, for the two existence checks, what the call writes into `exists` (`none` when
it leaves the variable alone). -/
structure modem_key_mgmt where
  exists_psk : Int × Option Bool
  exists_identity : Int × Option Bool
  delete_psk : Int
  delete_identity : Int

/-- What `main` is given before the driver loop: the results of the boot-time calls, the
configured identifier `CONFIG_NCE_ICCID`, whether secure transport is built in
(`CONFIG_LWM2M_DTLS_SUPPORT`), and the results of the connect attempts of the `modem_connect`
of line 783. -/
structure BootExt where
  nrf_modem_lib_init : Int
  CONFIG_NCE_ICCID : String
  app_event_manager_init : Int
  modem_info_init : Int
  CONFIG_LWM2M_DTLS_SUPPORT : Bool
  lte_lc_offline : Int
  key_mgmt : modem_key_mgmt
  lte_lc_connect : Int
  modem_connect : List Int
  CONFIG_LWM2M_CLIENT_UTILS_LTE_CONNEVAL : Bool

/-- How the part of `main` before the driver loop ends: `main` returns `ret`, or the driver
loop is entered, or the `modem_connect` of line 783 has not returned. -/
inductive main_outcome
  | returned (ret : Int) (s : Sys)
  | driver_loop (s : Sys)
  | connecting
  deriving DecidableEq, Repr

/-- The static initialisers of main.c: `client_state = START` (line 86), `reconnect` and
`modem_connected_to_network` zero-initialised (lines 91, 94), `update_session_lifetime = true`
(line 96), `K_SEM_DEFINE(state_mutex, 0, 1)` (line 92), `K_MUTEX_DEFINE(lte_mutex)` (line 93).
The lifetime resource of the engine is the one value main.c does not initialise. -/
def boot (server_lifetime : Nat) : Sys :=
  { client_state := .START
    reconnect := false
    modem_connected_to_network := false
    update_session_lifetime := true
    state_mutex := { count := 0, limit := 1 }
    lte_mutex := 0
    server_lifetime := server_lifetime
    trace := [] }

/-! ## Kernel primitives and variable accesses -/

/-- Append one operation to the trace. -/
def emit (o : Op) (s : Sys) : Sys :=
  { s with trace := s.trace ++ [o] }

/-- Modelled from the spec: the kernel mutex is not part of the repository. Locking raises
the lock count ("every handler acquires the lock on entry"). -/
def k_mutex_lock (s : Sys) : Sys :=
  emit .k_mutex_lock { s with lte_mutex := s.lte_mutex + 1 }

/-- Modelled from the spec: the kernel mutex is not part of the repository. Unlocking lowers
the lock count; on a free mutex it changes nothing. -/
def k_mutex_unlock (s : Sys) : Sys :=
  emit .k_mutex_unlock { s with lte_mutex := s.lte_mutex - 1 }

/-- Modelled from the spec: the kernel semaphore is not part of the repository. A post raises
the count unless it is at the limit ("capacity-1 wake signal", "repeated signals coalesce"). -/
def k_sem_give (s : Sys) : Sys :=
  emit .k_sem_give
    { s with state_mutex :=
        { s.state_mutex with
          count := if s.state_mutex.count ≠ s.state_mutex.limit then s.state_mutex.count + 1
                   else s.state_mutex.count } }

/-- Modelled from the spec: the kernel semaphore is not part of the repository. A wait with
`K_FOREVER` returns once the count is positive and lowers it by one; `none` is a wait that
does not return in the present configuration (the driver stays blocked). -/
def k_sem_take (s : Sys) : Option Sys :=
  if 0 < s.state_mutex.count then
    some (emit .k_sem_take
      { s with state_mutex := { s.state_mutex with count := s.state_mutex.count - 1 } })
  else none

/-- A read of a shared variable. -/
def load (v : Var) (s : Sys) : Sys := emit (.read v) s

/-- The assignment `client_state = new_state`. -/
def set_client_state (new_state : client_state) (s : Sys) : Sys :=
  emit (.write .client_state) { s with client_state := new_state }

/-- The assignment `reconnect = b`. -/
def set_reconnect (b : Bool) (s : Sys) : Sys :=
  emit (.write .reconnect) { s with reconnect := b }

/-- The assignment `modem_connected_to_network = b`. -/
def set_modem_connected_to_network (b : Bool) (s : Sys) : Sys :=
  emit (.write .modem_connected_to_network) { s with modem_connected_to_network := b }

/-- The assignment `update_session_lifetime = b`. -/
def set_update_session_lifetime (b : Bool) (s : Sys) : Sys :=
  emit (.write .update_session_lifetime) { s with update_session_lifetime := b }

/-! ## The functions of main.c -/

/-- Function `state_trigger_and_unlock` (main.c:277-286). -/
def state_trigger_and_unlock (new_state : client_state) (s : Sys) : Sys :=
  let s := load .client_state s
  let s := if new_state ≠ s.client_state then k_sem_give (set_client_state new_state s) else s
  k_mutex_unlock s

/-- Function `state_set_and_unlock` (main.c:435-439). -/
def state_set_and_unlock (new_state : client_state) (s : Sys) : Sys :=
  k_mutex_unlock (set_client_state new_state s)

open lwm2m_rd_client_event in
/-- Function `rd_client_event` (main.c:441-549). `manage` is what
`lwm2m_utils_connection_manage` leaves in `client_event`, which it is handed by reference
(line 453); the `switch` of line 455 is applied to that value. -/
def rd_client_event (manage : lwm2m_rd_client_event → lwm2m_rd_client_event)
    (client_event : lwm2m_rd_client_event) (s : Sys) : Sys :=
  let s := k_mutex_lock s
  let s := load .client_state s
  if s.client_state = .LTE_OFFLINE ∧ client_event ≠ LWM2M_RD_CLIENT_EVENT_ENGINE_SUSPENDED then
    k_mutex_unlock s
  else
    let s := emit .lwm2m_utils_connection_manage s
    match manage client_event with
    | LWM2M_RD_CLIENT_EVENT_SERVER_DISABLED => k_mutex_unlock s
    | LWM2M_RD_CLIENT_EVENT_DEREGISTER => k_mutex_unlock s
    | LWM2M_RD_CLIENT_EVENT_NONE => k_mutex_unlock s
    | LWM2M_RD_CLIENT_EVENT_BOOTSTRAP_REG_FAILURE => state_trigger_and_unlock .NETWORK_ERROR s
    | LWM2M_RD_CLIENT_EVENT_BOOTSTRAP_REG_COMPLETE =>
      state_trigger_and_unlock .BOOTSTRAP (set_update_session_lifetime true s)
    | LWM2M_RD_CLIENT_EVENT_BOOTSTRAP_TRANSFER_COMPLETE => k_mutex_unlock s
    | LWM2M_RD_CLIENT_EVENT_REGISTRATION_FAILURE => state_trigger_and_unlock .CONNECTING s
    | LWM2M_RD_CLIENT_EVENT_REGISTRATION_COMPLETE => state_trigger_and_unlock .CONNECTED s
    | LWM2M_RD_CLIENT_EVENT_REG_TIMEOUT => state_trigger_and_unlock .CONNECTING s
    | LWM2M_RD_CLIENT_EVENT_REG_UPDATE => k_mutex_unlock s
    | LWM2M_RD_CLIENT_EVENT_REG_UPDATE_COMPLETE => state_trigger_and_unlock .CONNECTED s
    | LWM2M_RD_CLIENT_EVENT_DEREGISTER_FAILURE => state_set_and_unlock .START s
    | LWM2M_RD_CLIENT_EVENT_DISCONNECT => state_set_and_unlock .START s
    | LWM2M_RD_CLIENT_EVENT_QUEUE_MODE_RX_OFF => k_mutex_unlock s
    | LWM2M_RD_CLIENT_EVENT_ENGINE_SUSPENDED => k_mutex_unlock s
    | LWM2M_RD_CLIENT_EVENT_NETWORK_ERROR =>
      state_trigger_and_unlock .NETWORK_ERROR (set_reconnect true s)

/-- Function `modem_connect` (main.c:551-604): the `do ... while( ret < 0 )` loop over the
results of the successive `lte_lc_connect()` calls. `none` means the listed results are used
up before one of them is non-negative, so the loop has not returned. -/
def modem_connect (conneval : Bool) : List Int → Sys → Option Sys
  | [], _ => none
  | ret :: rest, s =>
    let s := emit .lte_lc_connect s
    if ret < 0 then
      modem_connect conneval rest (emit (.k_sleep 60) (emit .lte_lc_offline s))
    else
      let s := emit .lte_lc_lte_mode_get s
      some (if conneval then emit .lwm2m_utils_enable_conneval s else s)

/-- Function `lte_connected` (main.c:606-615). -/
def lte_connected (nw_reg_status : lte_lc_nw_reg_status) : Bool :=
  if nw_reg_status = .LTE_LC_NW_REG_REGISTERED_HOME ∨
      nw_reg_status = .LTE_LC_NW_REG_REGISTERED_ROAMING then true
  else false

/-- Function `lwm2m_lte_reg_handler_notify` (main.c:617-636). -/
def lwm2m_lte_reg_handler_notify (nw_reg_status : lte_lc_nw_reg_status) (s : Sys) : Sys :=
  let s := k_mutex_lock s
  let lte_registered := lte_connected nw_reg_status
  let s := load .modem_connected_to_network s
  let s :=
    if lte_registered ≠ s.modem_connected_to_network then
      let s := set_modem_connected_to_network lte_registered s
      let s := load .client_state s
      if s.client_state ≠ .START ∧ s.client_state ≠ .BOOTSTRAP then k_sem_give s else s
    else s
  k_mutex_unlock s

/-- Function `suspend_lwm2m_engine` (main.c:676-690). -/
def suspend_lwm2m_engine (x : Ext) (s : Sys) : Sys :=
  let s := state_trigger_and_unlock .LTE_OFFLINE s
  let s := emit .lwm2m_engine_pause s
  if x.lwm2m_engine_pause ≠ 0 then
    let s := set_reconnect true s
    let s := k_mutex_lock s
    state_trigger_and_unlock .NETWORK_ERROR s
  else s

/-- Function `rd_client_update_lifetime` (main.c:415-433). `current_lifetime` is initialised
to 0 (line 417) and both lifetimes are `uint32_t`. The results of `lwm2m_get_u32` and of
`lwm2m_set_u32` are not looked at (lines 423, 428): a read that succeeds leaves the held
value in `current_lifetime`, a read that fails leaves the 0; the write is issued whenever
`current_lifetime` differs from the configured value, and changes the held value when it
succeeds. -/
def rd_client_update_lifetime (x : Ext) (s : Sys) : Sys :=
  let current_lifetime := 0
  let lifetime := x.CONFIG_LWM2M_ENGINE_DEFAULT_LIFETIME % 2 ^ 32
  let s := emit .lwm2m_get_u32 s
  let current_lifetime :=
    if x.lwm2m_get_u32 = 0 then s.server_lifetime % 2 ^ 32 else current_lifetime
  let s :=
    if current_lifetime ≠ lifetime then
      let s := emit (.lwm2m_set_u32 lifetime) s
      if x.lwm2m_set_u32 = 0 then { s with server_lifetime := lifetime } else s
    else s
  set_update_session_lifetime false s

/-- One pass of the `while( true )` loop of `main` (main.c:800-928), from the
`k_mutex_lock` of line 808 up to, and not including, the `k_sem_take` of line 930. -/
def main_loop_pass (x : Ext) (s : Sys) : Option Sys :=
  let s := k_mutex_lock s
  let s := load .client_state s
  match s.client_state with
  | .START =>
    let s := emit .lwm2m_rd_client_start s
    if x.lwm2m_rd_client_start ≠ 0 then some (state_trigger_and_unlock .NETWORK_ERROR s)
    else some (state_trigger_and_unlock .CONNECTING s)
  | .BOOTSTRAP => some (state_set_and_unlock .BOOTSTRAP s)
  | .CONNECTING => some (k_mutex_unlock s)
  | .CONNECTED =>
    let s := load .modem_connected_to_network s
    if !s.modem_connected_to_network then some (suspend_lwm2m_engine x s)
    else
      let s := k_mutex_unlock s
      let s := load .update_session_lifetime s
      let s := if s.update_session_lifetime then rd_client_update_lifetime x s else s
      some (emit .date_time_update_async s)
  | .LTE_OFFLINE =>
    let s := load .modem_connected_to_network s
    if s.modem_connected_to_network then
      let s := state_trigger_and_unlock .CONNECTING s
      some (emit .lwm2m_engine_resume s)
    else some (k_mutex_unlock s)
  | .NETWORK_ERROR =>
    let s := state_trigger_and_unlock .START s
    let s := emit (.lwm2m_rd_client_stop false) s
    let s := load .reconnect s
    if s.reconnect then
      let s := set_reconnect false s
      let s := emit .lte_lc_offline s
      modem_connect x.CONFIG_LWM2M_CLIENT_UTILS_LTE_CONNEVAL x.lte_lc_connect s
    else some s

set_option linter.unusedVariables false in
/-- Function `reset_credentials` (main.c:389-413). Every call assigns its result to the one
variable `err`; the function returns the value `err` holds at the end. -/
def reset_credentials (k : modem_key_mgmt) (s : Sys) : Int × Sys :=
  let found := false
  let s := emit (.modem_key_mgmt_exists .MODEM_KEY_MGMT_CRED_TYPE_PSK) s
  let err := k.exists_psk.1
  let found := k.exists_psk.2.getD found
  let s := emit (.modem_key_mgmt_exists .MODEM_KEY_MGMT_CRED_TYPE_IDENTITY) s
  let err := k.exists_identity.1
  let found := k.exists_identity.2.getD found
  if err = 0 ∧ found = true then
    let s := emit (.modem_key_mgmt_delete .MODEM_KEY_MGMT_CRED_TYPE_PSK) s
    let err := k.delete_psk
    let s := emit (.modem_key_mgmt_delete .MODEM_KEY_MGMT_CRED_TYPE_IDENTITY) s
    let err := k.delete_identity
    (err, s)
  else (err, s)

/-- Function `lwm2m_setup` (main.c:288-319): it fills engine objects and returns 0. -/
def lwm2m_setup (s : Sys) : Int × Sys :=
  (0, emit .lwm2m_setup s)

/-- The part of `main` from the link connect of line 764 to the entry of the driver loop
(main.c:764-800). -/
def main_connect (b : BootExt) (s : Sys) : main_outcome :=
  let s := emit .lte_lc_connect s
  if b.lte_lc_connect ≠ 0 then .returned b.lte_lc_connect s
  else
    let r := lwm2m_setup s
    if r.1 < 0 then .returned 0 r.2
    else
      match modem_connect b.CONFIG_LWM2M_CLIENT_UTILS_LTE_CONNEVAL b.modem_connect r.2 with
      | none => .connecting
      | some s => .driver_loop s

/-- Function `main` up to the entry of the driver loop (main.c:692-800). The block of lines
742-762 is compiled in when `CONFIG_LWM2M_DTLS_SUPPORT` is defined. -/
def main_boot (b : BootExt) (s : Sys) : main_outcome :=
  let s := emit .nrf_modem_lib_init s
  if b.nrf_modem_lib_init < 0 then .returned 0 s
  else if b.CONFIG_NCE_ICCID.length < 1 then .returned 0 s
  else
    let s := emit .app_event_manager_init s
    if b.app_event_manager_init ≠ 0 then .returned 0 s
    else
      let s := emit .lte_lc_register_handler s
      let s := emit .modem_info_init s
      if b.modem_info_init < 0 then .returned 0 s
      else if b.CONFIG_LWM2M_DTLS_SUPPORT then
        let s := emit .lte_lc_offline s
        if b.lte_lc_offline ≠ 0 then .returned b.lte_lc_offline s
        else
          let r := reset_credentials b.key_mgmt s
          if r.1 ≠ 0 then .returned r.1 r.2
          else main_connect b r.2
      else main_connect b s

/-! ## Runs: callbacks, driver passes and waits -/

/-- An asynchronous callback into main.c: a registration-engine event handed to
`rd_client_event` (together with what the connection-management hook does to it), or an
attachment status handed to `lwm2m_lte_reg_handler_notify`. -/
inductive Callback
  | event (manage : lwm2m_rd_client_event → lwm2m_rd_client_event)
      (client_event : lwm2m_rd_client_event)
  | notify (nw_reg_status : lte_lc_nw_reg_status)

/-- Run one callback to its end. -/
def deliver (c : Callback) (s : Sys) : Sys :=
  match c with
  | .event manage client_event => rd_client_event manage client_event s
  | .notify nw_reg_status => lwm2m_lte_reg_handler_notify nw_reg_status s

/-- Run a sequence of callbacks, one after the other. -/
def deliver_all : List Callback → Sys → Sys
  | [], s => s
  | c :: rest, s => deliver_all rest (deliver c s)

/-- One step of a run: a callback, one pass of the driver loop, or the driver's wait
(`k_sem_take`, main.c:930). -/
inductive Step
  | callback (c : Callback)
  | pass (x : Ext)
  | wait

/-- Run one step; `none` when the step does not return (a wait that blocks, a connect loop
that is not over). -/
def step (a : Step) (s : Sys) : Option Sys :=
  match a with
  | .callback c => some (deliver c s)
  | .pass x => main_loop_pass x s
  | .wait => k_sem_take s

/-- Run a sequence of steps in order. -/
def run : List Step → Sys → Option Sys
  | [], s => some s
  | a :: rest, s => (step a s).bind (run rest)

/-- How many times operation `o` has been executed so far. -/
def calls (o : Op) (s : Sys) : Nat := s.trace.count o

/-- Everything a callback or a driver pass of the scenarios depends on, and the number of
engine-resume calls so far: the four variables, the semaphore and that number. -/
def summary (s : Sys) : client_state × Bool × Bool × Bool × k_sem × Nat :=
  (s.client_state, s.reconnect, s.modem_connected_to_network, s.update_session_lifetime,
    s.state_mutex, calls .lwm2m_engine_resume s)

/-- What the scenarios observe of a configuration: the connectivity state, the link status,
the count of the wake signal and the number of engine-resume calls so far. -/
def observe (s : Sys) : client_state × Bool × Nat × Nat :=
  (s.client_state, s.modem_connected_to_network, s.state_mutex.count,
    calls .lwm2m_engine_resume s)

/-- The observations along a run: one after every callback and every driver pass. A wait
that returns is passed over without a row; the list stops at the first step that does not
return, so a list with one row for every callback and pass means every step returned. -/
def visits : List Step → Sys → List (client_state × Bool × Nat × Nat)
  | [], _ => []
  | .wait :: rest, s =>
    match k_sem_take s with
    | none => []
    | some s' => visits rest s'
  | .callback c :: rest, s => observe (deliver c s) :: visits rest (deliver c s)
  | .pass x :: rest, s =>
    match main_loop_pass x s with
    | none => []
    | some s' => observe s' :: visits rest s'

/-- The boot configuration once the link monitor has reported attachment before the driver
loop starts (in `START` the handler records the status and posts nothing). -/
def boot_link_up (server_lifetime : Nat) : Sys :=
  { boot server_lifetime with modem_connected_to_network := true }

open lwm2m_rd_client_event in
/-- The round trip of the specification's scenario: a driver pass, a registration-complete
event, a driver pass, a link-lost notification, a driver pass, a link-restored notification,
a driver pass, a registration-complete event. Every driver pass but the first is preceded by
the wait of main.c:930 that lets the driver into it. -/
def round_trip (x1 x2 x3 x4 : Ext)
    (manage1 manage2 : lwm2m_rd_client_event → lwm2m_rd_client_event)
    (lost restored : lte_lc_nw_reg_status) : List Step :=
  [ .pass x1,
    .callback (.event manage1 LWM2M_RD_CLIENT_EVENT_REGISTRATION_COMPLETE),
    .wait, .pass x2,
    .callback (.notify lost),
    .wait, .pass x3,
    .callback (.notify restored),
    .wait, .pass x4,
    .callback (.event manage2 LWM2M_RD_CLIENT_EVENT_REGISTRATION_COMPLETE) ]


/-- A short run from boot: a pass with engine start succeeding, a registration-complete
event, the wait and the next pass. -/
def short_run : List Step :=
  [.pass ⟨0, 0, 0, [], false, 60, 0, 0⟩,
   .callback (.event id .LWM2M_RD_CLIENT_EVENT_REGISTRATION_COMPLETE),
   .wait, .pass ⟨0, 0, 0, [], false, 60, 0, 0⟩]

/-- The wake signal is the binary semaphore of `K_SEM_DEFINE( state_mutex, 0, 1 )`:
limit 1 and a count that does not exceed it. -/
def binary_signal (s : Sys) : Prop :=
  s.state_mutex.limit = 1 ∧ s.state_mutex.count ≤ 1

instance (s : Sys) : Decidable (binary_signal s) := by
  unfold binary_signal; infer_instance

open lwm2m_rd_client_event in
/-- The transition table of the dispatcher in the words of the specification (section 4.2):
the state the specification assigns to a prior state and an event. -/
def spec_transition (prior : client_state) : lwm2m_rd_client_event → client_state
  | LWM2M_RD_CLIENT_EVENT_BOOTSTRAP_REG_FAILURE => .NETWORK_ERROR
  | LWM2M_RD_CLIENT_EVENT_BOOTSTRAP_REG_COMPLETE => .BOOTSTRAP
  | LWM2M_RD_CLIENT_EVENT_BOOTSTRAP_TRANSFER_COMPLETE => prior
  | LWM2M_RD_CLIENT_EVENT_REGISTRATION_FAILURE => .CONNECTING
  | LWM2M_RD_CLIENT_EVENT_REG_TIMEOUT => .CONNECTING
  | LWM2M_RD_CLIENT_EVENT_REGISTRATION_COMPLETE => .CONNECTED
  | LWM2M_RD_CLIENT_EVENT_REG_UPDATE_COMPLETE => .CONNECTED
  | LWM2M_RD_CLIENT_EVENT_REG_UPDATE => prior
  | LWM2M_RD_CLIENT_EVENT_QUEUE_MODE_RX_OFF => prior
  | LWM2M_RD_CLIENT_EVENT_ENGINE_SUSPENDED => prior
  | LWM2M_RD_CLIENT_EVENT_SERVER_DISABLED => prior
  | LWM2M_RD_CLIENT_EVENT_DEREGISTER => prior
  | LWM2M_RD_CLIENT_EVENT_NONE => prior
  | LWM2M_RD_CLIENT_EVENT_DEREGISTER_FAILURE => .START
  | LWM2M_RD_CLIENT_EVENT_DISCONNECT => .START
  | LWM2M_RD_CLIENT_EVENT_NETWORK_ERROR => .NETWORK_ERROR

/-! ## Reading a run: operations, the lock flag, paths -/

/-- The operations `modem_connect` can execute after its first connect attempt. -/
def reconnect_ops : List Op :=
  [.lte_lc_connect, .lte_lc_offline, .k_sleep 60, .lte_lc_lte_mode_get,
   .lwm2m_utils_enable_conneval]

/-- The operations executed between a configuration `s` and a later configuration `s'`. -/
def ops_since (s s' : Sys) : List Op := s'.trace.drop s.trace.length

/-- The held/free flag of the lock after one operation of the context that executes it. -/
def lock_after (held : Bool) : Op → Bool
  | .k_mutex_lock => true
  | .k_mutex_unlock => false
  | _ => held

/-- Follow the held/free flag of the lock through the operations of one context, checking
`ok held o` at every operation `o`: the flag at the end, or `none` at the first operation
that fails the check. -/
def lock_scan (ok : Bool → Op → Bool) : Bool → List Op → Option Bool
  | held, [] => some held
  | held, o :: rest => if ok held o then lock_scan ok (lock_after held o) rest else none

/-- An unlock is executed only while the lock is held. -/
def unlock_held (held : Bool) : Op → Bool
  | .k_mutex_unlock => held
  | _ => true

/-- The lock is acquired only while it is free. -/
def lock_free (held : Bool) : Op → Bool
  | .k_mutex_lock => !held
  | _ => true

/-- A write of one of the variables `vars` is executed only while the lock is held. -/
def writes_held (vars : List Var) (held : Bool) : Op → Bool
  | .write v => held || !vars.contains v
  | _ => true

/-- A read or a write of one of the variables `vars` is executed only while the lock is
held. -/
def accesses_held (vars : List Var) (held : Bool) : Op → Bool
  | .read v => held || !vars.contains v
  | .write v => held || !vars.contains v
  | _ => true

/-- Accesses of `vars` only while the lock is held, and no acquisition while it is held. -/
def guarded (vars : List Var) (held : Bool) (o : Op) : Bool :=
  accesses_held vars held o && lock_free held o

/-- A read or a write of one of the variables `vars` is executed only while the lock is
free. -/
def accesses_free (vars : List Var) (held : Bool) : Op → Bool
  | .read v => !held || !vars.contains v
  | .write v => !held || !vars.contains v
  | _ => true

/-- The two flags. -/
def flag_vars : List Var := [.update_session_lifetime, .reconnect]

/-- What is left of the one-shot lifetime resync: the reads of the lifetime so far, plus one
while `update_session_lifetime` is set. -/
def resync_budget (s : Sys) : Nat :=
  calls .lwm2m_get_u32 s + (if s.update_session_lifetime then 1 else 0)

open lwm2m_rd_client_event in
/-- A step other than a bootstrap-registration-complete event (as the hook leaves it). -/
def not_bootstrap_complete : Step → Prop
  | .callback (.event manage client_event) =>
    manage client_event ≠ LWM2M_RD_CLIENT_EVENT_BOOTSTRAP_REG_COMPLETE
  | _ => True

/-- The four shared variables. -/
def all_vars : List Var :=
  [.client_state, .modem_connected_to_network, .update_session_lifetime, .reconnect]

/-- The two variables the lock guards everywhere. -/
def state_vars : List Var := [.client_state, .modem_connected_to_network]

/-- The operation sequences of `rd_client_event`, one for each path through it. -/
def dispatcher_paths : List (List Op) :=
  [ [.k_mutex_lock, .read .client_state, .k_mutex_unlock],
    [.k_mutex_lock, .read .client_state, .lwm2m_utils_connection_manage, .k_mutex_unlock],
    [.k_mutex_lock, .read .client_state, .lwm2m_utils_connection_manage,
     .read .client_state, .k_mutex_unlock],
    [.k_mutex_lock, .read .client_state, .lwm2m_utils_connection_manage,
     .read .client_state, .write .client_state, .k_sem_give, .k_mutex_unlock],
    [.k_mutex_lock, .read .client_state, .lwm2m_utils_connection_manage,
     .write .update_session_lifetime, .read .client_state, .k_mutex_unlock],
    [.k_mutex_lock, .read .client_state, .lwm2m_utils_connection_manage,
     .write .update_session_lifetime, .read .client_state, .write .client_state,
     .k_sem_give, .k_mutex_unlock],
    [.k_mutex_lock, .read .client_state, .lwm2m_utils_connection_manage,
     .write .reconnect, .read .client_state, .k_mutex_unlock],
    [.k_mutex_lock, .read .client_state, .lwm2m_utils_connection_manage,
     .write .reconnect, .read .client_state, .write .client_state, .k_sem_give,
     .k_mutex_unlock],
    [.k_mutex_lock, .read .client_state, .lwm2m_utils_connection_manage,
     .write .client_state, .k_mutex_unlock] ]

/-- The operation sequences of `lwm2m_lte_reg_handler_notify`, one for each path. -/
def notify_paths : List (List Op) :=
  [ [.k_mutex_lock, .read .modem_connected_to_network, .k_mutex_unlock],
    [.k_mutex_lock, .read .modem_connected_to_network, .write .modem_connected_to_network,
     .read .client_state, .k_mutex_unlock],
    [.k_mutex_lock, .read .modem_connected_to_network, .write .modem_connected_to_network,
     .read .client_state, .k_sem_give, .k_mutex_unlock] ]

/-- The operation sequences of `suspend_lwm2m_engine`, one for each path. -/
def suspend_paths : List (List Op) :=
  [ [.read .client_state, .k_mutex_unlock, .lwm2m_engine_pause],
    [.read .client_state, .write .client_state, .k_sem_give, .k_mutex_unlock,
     .lwm2m_engine_pause],
    [.read .client_state, .k_mutex_unlock, .lwm2m_engine_pause, .write .reconnect,
     .k_mutex_lock, .read .client_state, .write .client_state, .k_sem_give, .k_mutex_unlock],
    [.read .client_state, .write .client_state, .k_sem_give, .k_mutex_unlock,
     .lwm2m_engine_pause, .write .reconnect, .k_mutex_lock, .read .client_state,
     .write .client_state, .k_sem_give, .k_mutex_unlock] ]

/-- The operation sequences of one driver pass, one for each path through the `switch` of
main.c:810-927, up to the call of `modem_connect` of line 919; `lifetime` is the value a
lifetime write carries. -/
def pass_paths (lifetime : Nat) : List (List Op) :=
  [ [.k_mutex_lock, .read .client_state, .lwm2m_rd_client_start, .read .client_state,
     .write .client_state, .k_sem_give, .k_mutex_unlock],
    [.k_mutex_lock, .read .client_state, .write .client_state, .k_mutex_unlock],
    [.k_mutex_lock, .read .client_state, .k_mutex_unlock],
    [.k_mutex_lock, .read .client_state, .read .modem_connected_to_network,
     .read .client_state, .write .client_state, .k_sem_give, .k_mutex_unlock,
     .lwm2m_engine_pause],
    [.k_mutex_lock, .read .client_state, .read .modem_connected_to_network,
     .read .client_state, .write .client_state, .k_sem_give, .k_mutex_unlock,
     .lwm2m_engine_pause, .write .reconnect, .k_mutex_lock, .read .client_state,
     .write .client_state, .k_sem_give, .k_mutex_unlock],
    [.k_mutex_lock, .read .client_state, .read .modem_connected_to_network, .k_mutex_unlock,
     .read .update_session_lifetime, .date_time_update_async],
    [.k_mutex_lock, .read .client_state, .read .modem_connected_to_network, .k_mutex_unlock,
     .read .update_session_lifetime, .lwm2m_get_u32, .write .update_session_lifetime,
     .date_time_update_async],
    [.k_mutex_lock, .read .client_state, .read .modem_connected_to_network, .k_mutex_unlock,
     .read .update_session_lifetime, .lwm2m_get_u32, .lwm2m_set_u32 lifetime,
     .write .update_session_lifetime, .date_time_update_async],
    [.k_mutex_lock, .read .client_state, .read .modem_connected_to_network,
     .read .client_state, .write .client_state, .k_sem_give, .k_mutex_unlock,
     .lwm2m_engine_resume],
    [.k_mutex_lock, .read .client_state, .read .modem_connected_to_network, .k_mutex_unlock],
    [.k_mutex_lock, .read .client_state, .read .client_state, .write .client_state,
     .k_sem_give, .k_mutex_unlock, .lwm2m_rd_client_stop false, .read .reconnect],
    [.k_mutex_lock, .read .client_state, .read .client_state, .write .client_state,
     .k_sem_give, .k_mutex_unlock, .lwm2m_rd_client_stop false, .read .reconnect,
     .write .reconnect, .lte_lc_offline, .lte_lc_connect] ]

/-- The operations of `k` failed connect attempts of `modem_connect`: each attempt is followed
by the forced link-offline and the sleep of 60 seconds. -/
def retry_ops : Nat → List Op
  | 0 => []
  | k + 1 => [.lte_lc_connect, .lte_lc_offline, .k_sleep 60] ++ retry_ops k

/-- Credential-store results in which the first existence check fails with -5 and the second
succeeds and finds nothing. -/
def first_check_fails : modem_key_mgmt :=
  { exists_psk := (-5, none)
    exists_identity := (0, some false)
    delete_psk := 0
    delete_identity := 0 }

/-- Credential-store results in which both checks succeed and find an entry, the first delete
fails with -5 and the second succeeds. -/
def first_delete_fails : modem_key_mgmt :=
  { exists_psk := (0, some true)
    exists_identity := (0, some true)
    delete_psk := -5
    delete_identity := 0 }

/-- A boot with secure transport configured, a non-empty identifier and every call other than
those of the credential store succeeding. -/
def secure_boot (k : modem_key_mgmt) : BootExt :=
  { nrf_modem_lib_init := 0
    CONFIG_NCE_ICCID := "8988228066600000000"
    app_event_manager_init := 0
    modem_info_init := 0
    CONFIG_LWM2M_DTLS_SUPPORT := true
    lte_lc_offline := 0
    key_mgmt := k
    lte_lc_connect := 0
    modem_connect := [0]
    CONFIG_LWM2M_CLIENT_UTILS_LTE_CONNEVAL := false }

/-- A boot with the empty identifier and every call succeeding. -/
def empty_identity_boot : BootExt :=
  { secure_boot { exists_psk := (0, none), exists_identity := (0, none),
                  delete_psk := 0, delete_identity := 0 } with
    CONFIG_NCE_ICCID := "" }

open lwm2m_rd_client_event in
/-- A run that leaves the driver at its wait in `CONNECTED`, followed by one more event: a
pass with engine start succeeding, the wait, the pass in `CONNECTING`, a
registration-complete event, the wait, the pass in `CONNECTED`, and then `client_event`. -/
def run_then_event (client_event : lwm2m_rd_client_event) : List Step :=
  [ .pass ⟨0, 0, 0, [], false, 60, 0, 0⟩,
    .wait,
    .pass ⟨0, 0, 0, [], false, 60, 0, 0⟩,
    .callback (.event id LWM2M_RD_CLIENT_EVENT_REGISTRATION_COMPLETE),
    .wait,
    .pass ⟨0, 0, 0, [], false, 60, 0, 0⟩,
    .callback (.event id client_event) ]

/-! ## The dispatcher -/

/-- Claim C1. Outside `LTE_OFFLINE`, `rd_client_event` leaves `client_state` equal to the
entry of the specification's table for the prior state and the event as it stands after the
connection-management hook; nothing else of the configuration enters the result. -/
theorem rd_client_event_follows_table
    (manage : lwm2m_rd_client_event → lwm2m_rd_client_event)
    (client_event : lwm2m_rd_client_event) (s : Sys)
    (h : s.client_state ≠ .LTE_OFFLINE) :
    (rd_client_event manage client_event s).client_state
      = spec_transition s.client_state (manage client_event) := by
  obtain ⟨cs, rc, mc, usl, sem, lm, sl, tr⟩ := s
  simp only at h
  cases hm : manage client_event <;> cases cs <;>
    simp_all [rd_client_event, spec_transition, state_trigger_and_unlock, state_set_and_unlock,
      k_mutex_lock, k_mutex_unlock, k_sem_give, load, emit, set_client_state,
      set_update_session_lifetime, set_reconnect]

/-- Witness for C1: a registration failure received in `CONNECTED`, with a hook that leaves
the event alone, moves to `CONNECTING`. -/
theorem rd_client_event_follows_table_witness :
    ({ boot 0 with client_state := .CONNECTED } : Sys).client_state ≠ .LTE_OFFLINE ∧
    (rd_client_event id .LWM2M_RD_CLIENT_EVENT_REGISTRATION_FAILURE
        { boot 0 with client_state := .CONNECTED }).client_state
      = spec_transition .CONNECTED (id .LWM2M_RD_CLIENT_EVENT_REGISTRATION_FAILURE) :=
  ⟨by decide,
   rd_client_event_follows_table id .LWM2M_RD_CLIENT_EVENT_REGISTRATION_FAILURE
     { boot 0 with client_state := .CONNECTED } (by decide)⟩

/-- Claim C2. In `LTE_OFFLINE` every event other than engine-suspended is dropped: the call
only takes the lock, reads `client_state` and releases the lock, so the state, the link
status, both flags and the wake signal (its count and the number of posts) are unchanged and
the connection-management hook is not reached. -/
theorem rd_client_event_drops_in_lte_offline
    (manage : lwm2m_rd_client_event → lwm2m_rd_client_event)
    (client_event : lwm2m_rd_client_event) (s : Sys)
    (hs : s.client_state = .LTE_OFFLINE)
    (he : client_event ≠ .LWM2M_RD_CLIENT_EVENT_ENGINE_SUSPENDED) :
    rd_client_event manage client_event s
        = { s with trace := s.trace ++ [.k_mutex_lock, .read .client_state, .k_mutex_unlock] } ∧
    (rd_client_event manage client_event s).client_state = .LTE_OFFLINE ∧
    (rd_client_event manage client_event s).modem_connected_to_network
        = s.modem_connected_to_network ∧
    (rd_client_event manage client_event s).update_session_lifetime
        = s.update_session_lifetime ∧
    (rd_client_event manage client_event s).reconnect = s.reconnect ∧
    (rd_client_event manage client_event s).state_mutex = s.state_mutex ∧
    calls .k_sem_give (rd_client_event manage client_event s) = calls .k_sem_give s := by
  obtain ⟨cs, rc, mc, usl, sem, lm, sl, tr⟩ := s
  simp only at hs
  subst hs
  simp [rd_client_event, he, k_mutex_lock, k_mutex_unlock, load, emit, calls]

/-- Witness for C2: a network-error event received in `LTE_OFFLINE`. -/
theorem rd_client_event_drops_in_lte_offline_witness :
    (rd_client_event id .LWM2M_RD_CLIENT_EVENT_NETWORK_ERROR
        { boot 0 with client_state := .LTE_OFFLINE }).client_state = .LTE_OFFLINE ∧
    (rd_client_event id .LWM2M_RD_CLIENT_EVENT_NETWORK_ERROR
        { boot 0 with client_state := .LTE_OFFLINE }).reconnect = false :=
  have h := rd_client_event_drops_in_lte_offline id .LWM2M_RD_CLIENT_EVENT_NETWORK_ERROR
    { boot 0 with client_state := .LTE_OFFLINE } rfl (by decide)
  ⟨h.2.1, h.2.2.2.2.1⟩

/-! ## The link monitor adapter -/

/-- Claim C3. `lwm2m_lte_reg_handler_notify` never changes `client_state`; `attached` is true
exactly for the home and the roaming status; when `attached` equals the stored link status
the call only locks, reads and unlocks; when it differs the link status becomes `attached`
and the wake signal is posted exactly when the state is neither `START` nor `BOOTSTRAP`
(otherwise the semaphore is untouched). -/
theorem lwm2m_lte_reg_handler_notify_edge
    (nw_reg_status : lte_lc_nw_reg_status) (s : Sys) :
    (lwm2m_lte_reg_handler_notify nw_reg_status s).client_state = s.client_state ∧
    (lte_connected nw_reg_status = true ↔
      nw_reg_status = .LTE_LC_NW_REG_REGISTERED_HOME ∨
      nw_reg_status = .LTE_LC_NW_REG_REGISTERED_ROAMING) ∧
    (lte_connected nw_reg_status = s.modem_connected_to_network →
      lwm2m_lte_reg_handler_notify nw_reg_status s
        = { s with trace := s.trace ++
              [.k_mutex_lock, .read .modem_connected_to_network, .k_mutex_unlock] }) ∧
    (lte_connected nw_reg_status ≠ s.modem_connected_to_network →
      (lwm2m_lte_reg_handler_notify nw_reg_status s).modem_connected_to_network
          = lte_connected nw_reg_status ∧
      (lwm2m_lte_reg_handler_notify nw_reg_status s).reconnect = s.reconnect ∧
      (lwm2m_lte_reg_handler_notify nw_reg_status s).update_session_lifetime
          = s.update_session_lifetime ∧
      (calls .k_sem_give (lwm2m_lte_reg_handler_notify nw_reg_status s)
          = calls .k_sem_give s + 1 ↔
        s.client_state ≠ .START ∧ s.client_state ≠ .BOOTSTRAP) ∧
      (s.client_state ≠ .START ∧ s.client_state ≠ .BOOTSTRAP →
        (lwm2m_lte_reg_handler_notify nw_reg_status s).state_mutex
          = (k_sem_give s).state_mutex) ∧
      (¬ (s.client_state ≠ .START ∧ s.client_state ≠ .BOOTSTRAP) →
        (lwm2m_lte_reg_handler_notify nw_reg_status s).state_mutex = s.state_mutex ∧
        calls .k_sem_give (lwm2m_lte_reg_handler_notify nw_reg_status s)
          = calls .k_sem_give s)) := by
  obtain ⟨cs, rc, mc, usl, sem, lm, sl, tr⟩ := s
  refine ⟨?_, ?_, ?_, ?_⟩
  · cases cs <;> by_cases h : lte_connected nw_reg_status = mc <;>
      simp [lwm2m_lte_reg_handler_notify, h, k_mutex_lock, k_mutex_unlock, k_sem_give, load,
        emit, set_modem_connected_to_network]
  · cases nw_reg_status <;> simp [lte_connected]
  · intro h
    simp only at h
    simp [lwm2m_lte_reg_handler_notify, h, k_mutex_lock, k_mutex_unlock, load, emit]
  · intro h
    simp only at h
    cases cs <;>
      simp [lwm2m_lte_reg_handler_notify, h, k_mutex_lock, k_mutex_unlock, k_sem_give, load,
        emit, set_modem_connected_to_network, calls]

/-! ## The transition helpers -/

/-- Claim C4. Called with the lock held once and the binary wake signal at count `c`,
`state_trigger_and_unlock n` ends with `client_state = n` and the lock free, posts the wake
signal exactly when `n` differs from the prior state, and then leaves the count at 1, else
at `c`; `state_set_and_unlock n` ends with `client_state = n` and the lock free, never posts
and leaves the semaphore as it was. -/
theorem transition_helpers (new_state : client_state) (s : Sys)
    (hlock : s.lte_mutex = 1) (hsig : binary_signal s) :
    ((state_trigger_and_unlock new_state s).client_state = new_state ∧
      (state_trigger_and_unlock new_state s).lte_mutex = 0 ∧
      (calls .k_sem_give (state_trigger_and_unlock new_state s) = calls .k_sem_give s + 1 ↔
        new_state ≠ s.client_state) ∧
      (new_state ≠ s.client_state →
        (state_trigger_and_unlock new_state s).state_mutex.count = 1) ∧
      (new_state = s.client_state →
        (state_trigger_and_unlock new_state s).state_mutex.count = s.state_mutex.count ∧
        calls .k_sem_give (state_trigger_and_unlock new_state s) = calls .k_sem_give s)) ∧
    ((state_set_and_unlock new_state s).client_state = new_state ∧
      (state_set_and_unlock new_state s).lte_mutex = 0 ∧
      (state_set_and_unlock new_state s).state_mutex.count = s.state_mutex.count ∧
      calls .k_sem_give (state_set_and_unlock new_state s) = calls .k_sem_give s) := by
  obtain ⟨cs, rc, mc, usl, ⟨cnt, lim⟩, lm, sl, tr⟩ := s
  obtain ⟨hl, hc⟩ := hsig
  simp only at hlock hl hc
  subst hlock hl
  have hcnt : cnt = 0 ∨ cnt = 1 := by omega
  by_cases h : new_state = cs
  · subst h
    simp [state_trigger_and_unlock, state_set_and_unlock, k_mutex_unlock, load, emit,
      set_client_state, calls]
  · rcases hcnt with rfl | rfl <;>
      simp [state_trigger_and_unlock, state_set_and_unlock, k_mutex_unlock, k_sem_give, load,
        emit, set_client_state, calls, h]

/-- Witness for C4: from `CONNECTED` with the lock held and nothing pending, towards
`LTE_OFFLINE`. -/
theorem transition_helpers_witness :
    (state_trigger_and_unlock .LTE_OFFLINE
        { boot 0 with client_state := .CONNECTED, lte_mutex := 1 }).state_mutex.count = 1 ∧
    (state_set_and_unlock .START
        { boot 0 with client_state := .CONNECTED, lte_mutex := 1 }).state_mutex.count = 0 :=
  have h := transition_helpers .LTE_OFFLINE
    { boot 0 with client_state := .CONNECTED, lte_mutex := 1 } rfl (by decide)
  have h2 := transition_helpers .START
    { boot 0 with client_state := .CONNECTED, lte_mutex := 1 } rfl (by decide)
  ⟨h.1.2.2.2.1 (by decide), h2.2.2.2.1⟩

/-! ## The driver loop -/

/-- Claim C9. A pass entered in `START` calls engine start once and ends in `CONNECTING` when
start returns zero, in `NETWORK_ERROR` otherwise; either way the wake signal is posted once
and is pending, and `reconnect`, `update_session_lifetime` and the link status are
unchanged. -/
theorem start_action (x : Ext) (s : Sys)
    (hs : s.client_state = .START) (hsig : binary_signal s) :
    ∃ s', main_loop_pass x s = some s' ∧
      calls .lwm2m_rd_client_start s' = calls .lwm2m_rd_client_start s + 1 ∧
      (x.lwm2m_rd_client_start = 0 → s'.client_state = .CONNECTING) ∧
      (x.lwm2m_rd_client_start ≠ 0 → s'.client_state = .NETWORK_ERROR) ∧
      calls .k_sem_give s' = calls .k_sem_give s + 1 ∧
      s'.state_mutex.count = 1 ∧
      s'.reconnect = s.reconnect ∧
      s'.update_session_lifetime = s.update_session_lifetime ∧
      s'.modem_connected_to_network = s.modem_connected_to_network := by
  obtain ⟨cs, rc, mc, usl, ⟨cnt, lim⟩, lm, sl, tr⟩ := s
  obtain ⟨hl, hc⟩ := hsig
  simp only at hs hl hc
  subst hs hl
  have hcnt : cnt = 0 ∨ cnt = 1 := by omega
  by_cases hr : x.lwm2m_rd_client_start = 0 <;> rcases hcnt with rfl | rfl <;>
    simp [main_loop_pass, state_trigger_and_unlock, k_mutex_lock, k_mutex_unlock, k_sem_give,
      load, emit, set_client_state, calls, hr]

/-- Witness for C9: the first pass after boot, with engine start returning zero. -/
theorem start_action_witness :
    ∃ s', main_loop_pass ⟨0, 0, 0, [], false, 60, 0, 0⟩ (boot 0) = some s' ∧
      s'.client_state = .CONNECTING ∧ s'.state_mutex.count = 1 :=
  have ⟨s', h⟩ := start_action ⟨0, 0, 0, [], false, 60, 0, 0⟩ (boot 0) rfl (by decide)
  ⟨s', h.1, h.2.2.1 rfl, h.2.2.2.2.2.1⟩

/-- Claim C6. A pass entered in `CONNECTED` with the link down calls engine pause exactly
once. When pause returns zero the pass ends in `LTE_OFFLINE` with the wake signal posted once
and `reconnect` unchanged; when pause fails it ends in `NETWORK_ERROR` with `reconnect` set
and the wake signal posted (once for each of the two transitions). The signal is pending at
the end in both cases. -/
theorem suspend_action (x : Ext) (s : Sys)
    (hs : s.client_state = .CONNECTED) (hlink : s.modem_connected_to_network = false)
    (hsig : binary_signal s) :
    ∃ s', main_loop_pass x s = some s' ∧
      calls .lwm2m_engine_pause s' = calls .lwm2m_engine_pause s + 1 ∧
      s'.state_mutex.count = 1 ∧
      (x.lwm2m_engine_pause = 0 →
        s'.client_state = .LTE_OFFLINE ∧ s'.reconnect = s.reconnect ∧
        calls .k_sem_give s' = calls .k_sem_give s + 1) ∧
      (x.lwm2m_engine_pause ≠ 0 →
        s'.client_state = .NETWORK_ERROR ∧ s'.reconnect = true ∧
        calls .k_sem_give s' = calls .k_sem_give s + 2) := by
  obtain ⟨cs, rc, mc, usl, ⟨cnt, lim⟩, lm, sl, tr⟩ := s
  obtain ⟨hl, hc⟩ := hsig
  simp only at hs hlink hl hc
  subst hs hlink hl
  have hcnt : cnt = 0 ∨ cnt = 1 := by omega
  by_cases hr : x.lwm2m_engine_pause = 0 <;> rcases hcnt with rfl | rfl <;>
    simp [main_loop_pass, suspend_lwm2m_engine, state_trigger_and_unlock, k_mutex_lock,
      k_mutex_unlock, k_sem_give, load, emit, set_client_state, set_reconnect, calls, hr]

/-- Witness for C6: `CONNECTED` with the link down and engine pause failing with -1. -/
theorem suspend_action_witness :
    ∃ s', main_loop_pass ⟨0, -1, 0, [], false, 60, 0, 0⟩
        { boot 0 with client_state := .CONNECTED } = some s' ∧
      s'.client_state = .NETWORK_ERROR ∧ s'.reconnect = true ∧
      calls .lwm2m_engine_pause s' = 1 :=
  have ⟨s', h⟩ := suspend_action ⟨0, -1, 0, [], false, 60, 0, 0⟩
    { boot 0 with client_state := .CONNECTED } rfl rfl (by decide)
  ⟨s', h.1, (h.2.2.2.2 (by decide)).1, (h.2.2.2.2 (by decide)).2.1, h.2.1⟩

/-- Claim C7. A pass entered in `LTE_OFFLINE` with the link up ends in `CONNECTING` with the
wake signal posted once and pending and engine resume called once, and the whole outcome is
the same whatever resume returns; with the link down the pass only locks, reads the state and
the link status and unlocks (no wake, no resume). -/
theorem resume_action (x : Ext) (s : Sys)
    (hs : s.client_state = .LTE_OFFLINE) (hsig : binary_signal s) :
    (s.modem_connected_to_network = true →
      ∃ s', main_loop_pass x s = some s' ∧
        s'.client_state = .CONNECTING ∧
        calls .k_sem_give s' = calls .k_sem_give s + 1 ∧
        s'.state_mutex.count = 1 ∧
        calls .lwm2m_engine_resume s' = calls .lwm2m_engine_resume s + 1 ∧
        s'.reconnect = s.reconnect ∧
        s'.update_session_lifetime = s.update_session_lifetime ∧
        ∀ ret : Int, main_loop_pass { x with lwm2m_engine_resume := ret } s = some s') ∧
    (s.modem_connected_to_network = false →
      main_loop_pass x s = some { s with trace := s.trace ++
        [.k_mutex_lock, .read .client_state, .read .modem_connected_to_network,
         .k_mutex_unlock] }) := by
  obtain ⟨cs, rc, mc, usl, ⟨cnt, lim⟩, lm, sl, tr⟩ := s
  obtain ⟨hl, hc⟩ := hsig
  simp only at hs hl hc
  subst hs hl
  have hcnt : cnt = 0 ∨ cnt = 1 := by omega
  cases mc <;> rcases hcnt with rfl | rfl <;>
    simp [main_loop_pass, state_trigger_and_unlock, k_mutex_lock, k_mutex_unlock, k_sem_give,
      load, emit, set_client_state, calls]

/-- Witness for C7: `LTE_OFFLINE` with the link up and engine resume failing with -5. -/
theorem resume_action_witness :
    ∃ s', main_loop_pass ⟨0, 0, -5, [], false, 60, 0, 0⟩
        { boot 0 with client_state := .LTE_OFFLINE, modem_connected_to_network := true }
          = some s' ∧
      s'.client_state = .CONNECTING ∧ calls .lwm2m_engine_resume s' = 1 :=
  have ⟨s', h⟩ := (resume_action ⟨0, 0, -5, [], false, 60, 0, 0⟩
    { boot 0 with client_state := .LTE_OFFLINE, modem_connected_to_network := true }
    rfl (by decide)).1 rfl
  ⟨s', h.1, h.2.1, h.2.2.2.2.1⟩

/-- When one of the listed connect results is non-negative, `modem_connect` returns; it
changes nothing but the trace, to which it appends a connect attempt followed by link
control operations only. -/
theorem modem_connect_returns (conneval : Bool) (rets : List Int)
    (h : ∃ r ∈ rets, 0 ≤ r) (s : Sys) :
    ∃ ops : List Op,
      modem_connect conneval rets s = some { s with trace := s.trace ++ .lte_lc_connect :: ops } ∧
      ∀ o ∈ ops, o ∈ reconnect_ops := by
  induction rets generalizing s with
  | nil => simp at h
  | cons ret rest ih =>
    by_cases hr : ret < 0
    · have h' : ∃ r ∈ rest, 0 ≤ r := by
        obtain ⟨r, hmem, hpos⟩ := h
        rcases List.mem_cons.1 hmem with rfl | hmem
        · omega
        · exact ⟨r, hmem, hpos⟩
      obtain ⟨ops, heq, hops⟩ := ih h' (emit (.k_sleep 60) (emit .lte_lc_offline
        (emit .lte_lc_connect s)))
      refine ⟨[.lte_lc_offline, .k_sleep 60, .lte_lc_connect] ++ ops, ?_, ?_⟩
      · simp only [emit] at heq
        simpa [modem_connect, hr, emit] using heq
      · intro o ho
        rcases List.mem_append.1 ho with ho | ho
        · revert ho; simp [reconnect_ops]; tauto
        · exact hops o ho
    · cases conneval
      · refine ⟨[.lte_lc_lte_mode_get], ?_, ?_⟩
        · simp [modem_connect, hr, emit]
        · simp [reconnect_ops]
      · refine ⟨[.lte_lc_lte_mode_get, .lwm2m_utils_enable_conneval], ?_, ?_⟩
        · simp [modem_connect, hr, emit]
        · simp [reconnect_ops]

/-- Claim C8. A pass entered in `NETWORK_ERROR` returns (when `reconnect` is set: provided one
connect attempt of the reconnection policy succeeds) and ends in `START` with the wake signal
posted once and pending, engine stop called once and `reconnect` false. When `reconnect` was
set the pass continues with `lte_lc_offline` and `modem_connect`; when it was clear the pass
stops right after reading `reconnect`, so no link operation is executed. -/
theorem network_error_action (x : Ext) (s : Sys)
    (hs : s.client_state = .NETWORK_ERROR) (hsig : binary_signal s)
    (hconn : s.reconnect = true → ∃ r ∈ x.lte_lc_connect, 0 ≤ r) :
    ∃ s', main_loop_pass x s = some s' ∧
      s'.client_state = .START ∧
      calls .k_sem_give s' = calls .k_sem_give s + 1 ∧
      s'.state_mutex.count = 1 ∧
      calls (.lwm2m_rd_client_stop false) s' = calls (.lwm2m_rd_client_stop false) s + 1 ∧
      calls (.lwm2m_rd_client_stop true) s' = calls (.lwm2m_rd_client_stop true) s ∧
      s'.reconnect = false ∧
      (s.reconnect = true →
        ∃ ops, (∀ o ∈ ops, o ∈ reconnect_ops) ∧
          s'.trace = s.trace ++
            [.k_mutex_lock, .read .client_state, .read .client_state, .write .client_state,
             .k_sem_give, .k_mutex_unlock, .lwm2m_rd_client_stop false, .read .reconnect,
             .write .reconnect, .lte_lc_offline, .lte_lc_connect] ++ ops) ∧
      (s.reconnect = false →
        s'.trace = s.trace ++
          [.k_mutex_lock, .read .client_state, .read .client_state, .write .client_state,
           .k_sem_give, .k_mutex_unlock, .lwm2m_rd_client_stop false, .read .reconnect]) := by
  obtain ⟨cs, rc, mc, usl, ⟨cnt, lim⟩, lm, sl, tr⟩ := s
  obtain ⟨hl, hc⟩ := hsig
  simp only at hs hl hc hconn
  subst hs hl
  have hcnt : cnt = 0 ∨ cnt = 1 := by omega
  cases rc
  · rcases hcnt with rfl | rfl <;>
      simp [main_loop_pass, state_trigger_and_unlock, k_mutex_lock, k_mutex_unlock, k_sem_give,
        load, emit, set_client_state, calls]
  · have hops : ∀ ops : List Op, (∀ o ∈ ops, o ∈ reconnect_ops) →
        ops.count .k_sem_give = 0 ∧ ops.count (.lwm2m_rd_client_stop false) = 0 ∧
        ops.count (.lwm2m_rd_client_stop true) = 0 := by
      intro ops h
      refine ⟨?_, ?_, ?_⟩ <;>
        exact List.count_eq_zero.2 (fun hmem => by have := h _ hmem; simp [reconnect_ops] at this)
    obtain ⟨ops, heq, hmem⟩ := modem_connect_returns x.CONFIG_LWM2M_CLIENT_UTILS_LTE_CONNEVAL
      x.lte_lc_connect (hconn rfl)
      (emit .lte_lc_offline (set_reconnect false (load .reconnect
        (emit (.lwm2m_rd_client_stop false) (state_trigger_and_unlock .START
          (load .client_state
            (k_mutex_lock ⟨.NETWORK_ERROR, true, mc, usl, ⟨cnt, 1⟩, lm, sl, tr⟩)))))))
    obtain ⟨h1, h2, h3⟩ := hops ops hmem
    refine ⟨⟨.START, false, mc, usl, ⟨1, 1⟩, lm, sl, tr ++
      [.k_mutex_lock, .read .client_state, .read .client_state, .write .client_state,
       .k_sem_give, .k_mutex_unlock, .lwm2m_rd_client_stop false, .read .reconnect,
       .write .reconnect, .lte_lc_offline, .lte_lc_connect] ++ ops⟩, ?_, ?_⟩
    · rcases hcnt with rfl | rfl <;>
        simpa [main_loop_pass, state_trigger_and_unlock, k_mutex_lock, k_mutex_unlock,
          k_sem_give, load, emit, set_client_state, set_reconnect] using heq
    · simp [calls, h1, h2, h3]
      exact hmem

/-- Witness for C8: `NETWORK_ERROR` with `reconnect` set, the first connect attempt failing
with -1 and the second succeeding. -/
theorem network_error_action_witness :
    ∃ s', main_loop_pass ⟨0, 0, 0, [-1, 0], false, 60, 0, 0⟩
        { boot 0 with client_state := .NETWORK_ERROR, reconnect := true } = some s' ∧
      s'.client_state = .START ∧ s'.reconnect = false ∧ s'.state_mutex.count = 1 :=
  have ⟨s', h⟩ := network_error_action ⟨0, 0, 0, [-1, 0], false, 60, 0, 0⟩
    { boot 0 with client_state := .NETWORK_ERROR, reconnect := true } rfl (by decide)
    (fun _ => ⟨0, by decide, by decide⟩)
  ⟨s', h.1, h.2.1, h.2.2.2.2.2.2.1, h.2.2.2.1⟩

/-! ## The wake signal -/

/-- A post on a binary signal leaves the count at 1. -/
theorem k_sem_give_binary (s : Sys) (h : binary_signal s) :
    (k_sem_give s).state_mutex = { count := 1, limit := 1 } := by
  obtain ⟨cs, rc, mc, usl, ⟨cnt, lim⟩, lm, sl, tr⟩ := s
  obtain ⟨hl, hc⟩ := h
  simp only at hl hc
  subst hl
  have hcnt : cnt = 0 ∨ cnt = 1 := by omega
  rcases hcnt with rfl | rfl <;> simp [k_sem_give, emit]

set_option maxHeartbeats 1000000 in
/-- The dispatcher posts the wake signal at most once and touches the semaphore in no other
way. -/
theorem rd_client_event_signal (manage : lwm2m_rd_client_event → lwm2m_rd_client_event)
    (client_event : lwm2m_rd_client_event) (s : Sys) :
    ((rd_client_event manage client_event s).state_mutex = s.state_mutex ∧
      calls .k_sem_give (rd_client_event manage client_event s) = calls .k_sem_give s) ∨
    ((rd_client_event manage client_event s).state_mutex = (k_sem_give s).state_mutex ∧
      calls .k_sem_give (rd_client_event manage client_event s)
        = calls .k_sem_give s + 1) := by
  obtain ⟨cs, rc, mc, usl, sem, lm, sl, tr⟩ := s
  by_cases hdrop : cs = .LTE_OFFLINE ∧
      client_event ≠ .LWM2M_RD_CLIENT_EVENT_ENGINE_SUSPENDED
  · left
    simp [rd_client_event, hdrop, k_mutex_lock, k_mutex_unlock, load, emit, calls]
  · cases hm : manage client_event <;> cases cs <;>
      simp [rd_client_event, hm, hdrop, state_trigger_and_unlock, state_set_and_unlock,
        k_mutex_lock, k_mutex_unlock, k_sem_give, load, emit, set_client_state,
        set_update_session_lifetime, set_reconnect, calls] <;>
      simp_all

/-- The link-monitor handler posts the wake signal at most once and touches the semaphore in
no other way. -/
theorem lwm2m_lte_reg_handler_notify_signal (nw_reg_status : lte_lc_nw_reg_status)
    (s : Sys) :
    ((lwm2m_lte_reg_handler_notify nw_reg_status s).state_mutex = s.state_mutex ∧
      calls .k_sem_give (lwm2m_lte_reg_handler_notify nw_reg_status s)
        = calls .k_sem_give s) ∨
    ((lwm2m_lte_reg_handler_notify nw_reg_status s).state_mutex
        = (k_sem_give s).state_mutex ∧
      calls .k_sem_give (lwm2m_lte_reg_handler_notify nw_reg_status s)
        = calls .k_sem_give s + 1) := by
  obtain ⟨cs, rc, mc, usl, sem, lm, sl, tr⟩ := s
  by_cases h : lte_connected nw_reg_status = mc <;> cases cs <;>
    simp [lwm2m_lte_reg_handler_notify, h, k_mutex_lock, k_mutex_unlock,
      k_sem_give, load, emit, set_modem_connected_to_network, calls]

/-- A callback posts the wake signal at most once and touches the semaphore in no other
way. -/
theorem deliver_signal (c : Callback) (s : Sys) :
    ((deliver c s).state_mutex = s.state_mutex ∧
      calls .k_sem_give (deliver c s) = calls .k_sem_give s) ∨
    ((deliver c s).state_mutex = (k_sem_give s).state_mutex ∧
      calls .k_sem_give (deliver c s) = calls .k_sem_give s + 1) := by
  cases c with
  | event manage client_event => exact rd_client_event_signal manage client_event s
  | notify nw_reg_status => exact lwm2m_lte_reg_handler_notify_signal nw_reg_status s

/-- A sequence of callbacks keeps the signal binary, never lowers its count or the number
of posts, and leaves the count at 1 as soon as one of them has posted. -/
theorem deliver_all_signal (cbs : List Callback) (s : Sys) (h : binary_signal s) :
    binary_signal (deliver_all cbs s) ∧
    s.state_mutex.count ≤ (deliver_all cbs s).state_mutex.count ∧
    calls .k_sem_give s ≤ calls .k_sem_give (deliver_all cbs s) ∧
    (calls .k_sem_give s < calls .k_sem_give (deliver_all cbs s) →
      (deliver_all cbs s).state_mutex.count = 1) := by
  induction cbs generalizing s with
  | nil => simp [deliver_all, h]
  | cons c rest ih =>
    have hg := k_sem_give_binary s h
    have h1 : binary_signal (deliver c s) ∧
        s.state_mutex.count ≤ (deliver c s).state_mutex.count ∧
        calls .k_sem_give s ≤ calls .k_sem_give (deliver c s) ∧
        (calls .k_sem_give s < calls .k_sem_give (deliver c s) →
          (deliver c s).state_mutex.count = 1) := by
      obtain ⟨hl, hc⟩ := h
      rcases deliver_signal c s with ⟨hm, hn⟩ | ⟨hm, hn⟩
      · refine ⟨?_, ?_, ?_, ?_⟩
        · simp [binary_signal, hm, hl, hc]
        · simp [hm]
        · omega
        · omega
      · rw [hg] at hm
        refine ⟨?_, ?_, ?_, ?_⟩
        · simp [binary_signal, hm]
        · simp [hm, hc]
        · omega
        · intro _; simp [hm]
    obtain ⟨hb, hle, hcl, hone⟩ := h1
    obtain ⟨ib, ile, icl, ione⟩ := ih (deliver c s) hb
    have hb1 := ib.2
    refine ⟨ib, le_trans hle ile, le_trans hcl icl, ?_⟩
    intro hlt
    show (deliver_all rest (deliver c s)).state_mutex.count = 1
    by_cases hq : calls .k_sem_give s < calls .k_sem_give (deliver c s)
    · have := hone hq
      omega
    · apply ione
      have hlt' : calls .k_sem_give s
          < calls .k_sem_give (deliver_all rest (deliver c s)) := hlt
      omega

/-- The connect loop touches only the trace. -/
theorem modem_connect_frame (conneval : Bool) (rets : List Int) (s s' : Sys)
    (h : modem_connect conneval rets s = some s') :
    ∃ ops, s' = { s with trace := s.trace ++ ops } := by
  induction rets generalizing s with
  | nil => simp [modem_connect] at h
  | cons ret rest ih =>
    by_cases hr : ret < 0
    · simp only [modem_connect, hr, if_true] at h
      obtain ⟨ops, hops⟩ := ih _ h
      exact ⟨[.lte_lc_connect, .lte_lc_offline, .k_sleep 60] ++ ops, by simp [hops, emit]⟩
    · cases conneval
      · simp [modem_connect, hr, emit] at h
        exact ⟨[.lte_lc_connect, .lte_lc_lte_mode_get], by simp [← h]⟩
      · simp [modem_connect, hr, emit] at h
        exact ⟨[.lte_lc_connect, .lte_lc_lte_mode_get, .lwm2m_utils_enable_conneval],
          by simp [← h]⟩

/-- A driver pass that returns keeps the signal binary. -/
theorem main_loop_pass_binary (x : Ext) (s s' : Sys)
    (h : main_loop_pass x s = some s') (hb : binary_signal s) : binary_signal s' := by
  obtain ⟨cs, rc, mc, usl, ⟨cnt, lim⟩, lm, sl, tr⟩ := s
  obtain ⟨hl, hc⟩ := hb
  simp only at hl hc
  subst hl
  have hcnt : cnt = 0 ∨ cnt = 1 := by omega
  cases cs
  case NETWORK_ERROR =>
    cases rc
    · rcases hcnt with rfl | rfl <;>
        simp [main_loop_pass, state_trigger_and_unlock, k_mutex_lock, k_mutex_unlock,
          k_sem_give, load, emit, set_client_state] at h <;>
        subst h <;> simp [binary_signal]
    · rcases hcnt with rfl | rfl <;>
        simp [main_loop_pass, state_trigger_and_unlock, k_mutex_lock, k_mutex_unlock,
          k_sem_give, load, emit, set_client_state, set_reconnect] at h <;>
        obtain ⟨ops, hops⟩ := modem_connect_frame _ _ _ _ h <;>
        subst hops <;> simp [binary_signal]
  case START =>
    rcases hcnt with rfl | rfl <;> by_cases h1 : x.lwm2m_rd_client_start = 0 <;>
      simp [main_loop_pass, state_trigger_and_unlock, k_mutex_lock, k_mutex_unlock,
        k_sem_give, load, emit, set_client_state, h1] at h <;>
      subst h <;> simp [binary_signal]
  case CONNECTED =>
    cases mc
    · rcases hcnt with rfl | rfl <;> by_cases h2 : x.lwm2m_engine_pause = 0 <;>
        simp [main_loop_pass, suspend_lwm2m_engine, state_trigger_and_unlock, k_mutex_lock,
          k_mutex_unlock, k_sem_give, load, emit, set_client_state, set_reconnect, h2] at h <;>
        subst h <;> simp [binary_signal]
    · cases usl <;>
        simp [main_loop_pass, rd_client_update_lifetime, k_mutex_lock, k_mutex_unlock, load,
          emit, set_update_session_lifetime] at h <;>
        subst h <;> simp [binary_signal] <;> (try split_ifs) <;> simp [hc]
  case LTE_OFFLINE =>
    cases mc <;> rcases hcnt with rfl | rfl <;>
      simp [main_loop_pass, state_trigger_and_unlock, k_mutex_lock, k_mutex_unlock,
        k_sem_give, load, emit, set_client_state] at h <;>
      subst h <;> simp [binary_signal]
  all_goals
    simp [main_loop_pass, state_set_and_unlock, k_mutex_lock, k_mutex_unlock, load, emit,
      set_client_state] at h
    subst h
    simp [binary_signal, hc]

/-- A wait that returns keeps the signal binary. -/
theorem k_sem_take_binary (s s' : Sys) (h : k_sem_take s = some s')
    (hb : binary_signal s) : binary_signal s' := by
  obtain ⟨hl, hc⟩ := hb
  unfold k_sem_take at h
  split at h
  · simp only [Option.some.injEq] at h
    subst h
    simp only [binary_signal, emit]
    omega
  · simp at h

/-- Every step of a run keeps the signal binary. -/
theorem run_binary (steps : List Step) (s s' : Sys) (h : run steps s = some s')
    (hb : binary_signal s) : binary_signal s' := by
  induction steps generalizing s with
  | nil =>
    simp only [run, Option.some.injEq] at h
    exact h ▸ hb
  | cons a rest ih =>
    simp only [run] at h
    cases hstep : step a s with
    | none => simp [hstep] at h
    | some s1 =>
      rw [hstep] at h
      refine ih s1 h ?_
      cases a with
      | callback c =>
        simp only [step, Option.some.injEq] at hstep
        exact hstep ▸ (deliver_all_signal [c] s hb).1
      | pass x => exact main_loop_pass_binary x s s1 hstep hb
      | wait => exact k_sem_take_binary s s1 hstep hb

/-- Any positive number of posts on a binary signal leaves the count at 1 and changes no
variable of the program. -/
theorem k_sem_give_iterate (N : Nat) (hN : 1 ≤ N) (s : Sys) (hb : binary_signal s) :
    ∃ ops, k_sem_give^[N] s
      = { s with state_mutex := { count := 1, limit := 1 }, trace := s.trace ++ ops } := by
  induction N with
  | zero => omega
  | succ n ih =>
    rw [Function.iterate_succ_apply']
    by_cases hn : 1 ≤ n
    · obtain ⟨ops, hops⟩ := ih hn
      rw [hops]
      exact ⟨ops ++ [.k_sem_give], by simp [k_sem_give, emit]⟩
    · have h0 : n = 0 := by omega
      subst h0
      have hg := k_sem_give_binary s hb
      refine ⟨[.k_sem_give], ?_⟩
      simp only [Function.iterate_zero, id_eq]
      simp only [k_sem_give, emit] at hg ⊢
      simp only [Sys.mk.injEq, and_true, true_and]
      exact hg

/-- On a binary signal whose count is 1 the wait returns once: it lowers the count to 0 and
changes nothing else but the trace, and the wait after it blocks. -/
theorem k_sem_take_once (s : Sys) (hb : binary_signal s) (h1 : s.state_mutex.count = 1) :
    k_sem_take s = some { s with state_mutex := { count := 0, limit := 1 },
                                 trace := s.trace ++ [.k_sem_take] } ∧
    k_sem_take { s with state_mutex := { count := 0, limit := 1 },
                        trace := s.trace ++ [.k_sem_take] } = none := by
  obtain ⟨cs, rc, mc, usl, ⟨cnt, lim⟩, lm, sl, tr⟩ := s
  obtain ⟨hl, _⟩ := hb
  simp only at hl h1
  subst hl h1
  simp [k_sem_take, emit]

/-- Claim C5. In every configuration reached from boot by callbacks, driver passes and waits
the count of the wake signal is 0 or 1. From such a configuration, `N ≥ 1` posts (bare, or
issued by any sequence of callbacks) make the next wait return with the count back at 0 and
nothing else changed but the trace, so the pass that follows runs on the `client_state`
stored at that moment, and the wait after it blocks. -/
theorem binary_wake_signal (server_lifetime : Nat) (steps : List Step) (s : Sys)
    (hrun : run steps (boot server_lifetime) = some s) :
    (s.state_mutex.count = 0 ∨ s.state_mutex.count = 1) ∧
    (∀ N : Nat, 1 ≤ N →
      ∃ s2, k_sem_take (k_sem_give^[N] s) = some s2 ∧
        s2.state_mutex.count = 0 ∧
        s2.client_state = s.client_state ∧
        k_sem_take s2 = none) ∧
    (∀ cbs : List Callback,
      calls .k_sem_give s < calls .k_sem_give (deliver_all cbs s) →
      k_sem_take (deliver_all cbs s)
        = some { deliver_all cbs s with
                  state_mutex := { count := 0, limit := 1 },
                  trace := (deliver_all cbs s).trace ++ [.k_sem_take] } ∧
      k_sem_take { deliver_all cbs s with
                    state_mutex := { count := 0, limit := 1 },
                    trace := (deliver_all cbs s).trace ++ [.k_sem_take] } = none) := by
  have hb : binary_signal s :=
    run_binary steps (boot server_lifetime) s hrun (by simp [binary_signal, boot])
  refine ⟨?_, ?_, ?_⟩
  · have := hb.2
    omega
  · intro N hN
    obtain ⟨ops, hops⟩ := k_sem_give_iterate N hN s hb
    have h1 := k_sem_take_once (k_sem_give^[N] s) (by simp [hops, binary_signal])
      (by simp [hops])
    exact ⟨_, h1.1, rfl, by simp [hops], h1.2⟩
  · intro cbs hlt
    obtain ⟨hb1, _, _, hone⟩ := deliver_all_signal cbs s hb
    exact k_sem_take_once (deliver_all cbs s) hb1 (hone hlt)

/-- Witness for C5: the short run from boot returns, and the count at its end is 0 or 1. -/
theorem binary_wake_signal_witness :
    ∃ s, run short_run (boot 0) = some s ∧
      (s.state_mutex.count = 0 ∨ s.state_mutex.count = 1) :=
  ⟨_, rfl, (binary_wake_signal 0 short_run _ rfl).1⟩

/-! ## The round trip -/

/-- The pass in `START` with engine start succeeding, on summaries. -/
theorem summary_pass_start (x : Ext) (s : Sys) (rc mc usl : Bool) (n : Nat)
    (hx : x.lwm2m_rd_client_start = 0)
    (h : summary s = (.START, rc, mc, usl, ⟨0, 1⟩, n)) :
    ∃ s', main_loop_pass x s = some s' ∧
      summary s' = (.CONNECTING, rc, mc, usl, ⟨1, 1⟩, n) := by
  obtain ⟨cs, rc', mc', usl', sem, lm, sl, tr⟩ := s
  simp only [summary, calls, Prod.mk.injEq] at h
  obtain ⟨rfl, rfl, rfl, rfl, rfl, rfl⟩ := h
  simp [main_loop_pass, state_trigger_and_unlock, k_mutex_lock, k_mutex_unlock, k_sem_give,
    load, emit, set_client_state, summary, calls, hx]

/-- The registration-complete event, on summaries. -/
theorem summary_registration_complete
    (manage : lwm2m_rd_client_event → lwm2m_rd_client_event) (s : Sys)
    (rc mc usl : Bool) (n : Nat)
    (hm : manage .LWM2M_RD_CLIENT_EVENT_REGISTRATION_COMPLETE
      = .LWM2M_RD_CLIENT_EVENT_REGISTRATION_COMPLETE)
    (h : summary s = (.CONNECTING, rc, mc, usl, ⟨1, 1⟩, n)) :
    summary (rd_client_event manage .LWM2M_RD_CLIENT_EVENT_REGISTRATION_COMPLETE s)
      = (.CONNECTED, rc, mc, usl, ⟨1, 1⟩, n) := by
  obtain ⟨cs, rc', mc', usl', sem, lm, sl, tr⟩ := s
  simp only [summary, calls, Prod.mk.injEq] at h
  obtain ⟨rfl, rfl, rfl, rfl, rfl, rfl⟩ := h
  simp [rd_client_event, hm, state_trigger_and_unlock, k_mutex_lock, k_mutex_unlock,
    k_sem_give, load, emit, set_client_state, summary, calls]

/-- The wait on a pending signal, on summaries. -/
theorem summary_wait (s : Sys) (cs : client_state) (rc mc usl : Bool) (n : Nat)
    (h : summary s = (cs, rc, mc, usl, ⟨1, 1⟩, n)) :
    ∃ s', k_sem_take s = some s' ∧ summary s' = (cs, rc, mc, usl, ⟨0, 1⟩, n) := by
  obtain ⟨cs', rc', mc', usl', sem, lm, sl, tr⟩ := s
  simp only [summary, calls, Prod.mk.injEq] at h
  obtain ⟨rfl, rfl, rfl, rfl, rfl, rfl⟩ := h
  simp [k_sem_take, emit, summary, calls]

/-- The pass in `CONNECTED` with the link up, on summaries. -/
theorem summary_pass_connected (x : Ext) (s : Sys) (rc usl : Bool) (sem : k_sem) (n : Nat)
    (h : summary s = (.CONNECTED, rc, true, usl, sem, n)) :
    ∃ s', main_loop_pass x s = some s' ∧
      summary s' = (.CONNECTED, rc, true, false, sem, n) := by
  obtain ⟨cs', rc', mc', usl', sem', lm, sl, tr⟩ := s
  simp only [summary, calls, Prod.mk.injEq] at h
  obtain ⟨rfl, rfl, rfl, rfl, rfl, rfl⟩ := h
  cases usl'
  · simp [main_loop_pass, k_mutex_lock, k_mutex_unlock, load, emit, summary, calls]
  · simp [main_loop_pass, rd_client_update_lifetime, k_mutex_lock, k_mutex_unlock, load, emit,
      set_update_session_lifetime, summary, calls]
    split_ifs <;> simp

/-- A change of the link status notified outside `START` and `BOOTSTRAP`, on summaries. -/
theorem summary_notify (nw_reg_status : lte_lc_nw_reg_status) (s : Sys)
    (cs : client_state) (rc mc usl : Bool) (c n : Nat)
    (hedge : lte_connected nw_reg_status ≠ mc) (h1 : cs ≠ .START) (h2 : cs ≠ .BOOTSTRAP)
    (hc : c ≤ 1) (h : summary s = (cs, rc, mc, usl, ⟨c, 1⟩, n)) :
    summary (lwm2m_lte_reg_handler_notify nw_reg_status s)
      = (cs, rc, lte_connected nw_reg_status, usl, ⟨1, 1⟩, n) := by
  obtain ⟨cs', rc', mc', usl', sem, lm, sl, tr⟩ := s
  simp only [summary, calls, Prod.mk.injEq] at h
  obtain ⟨rfl, rfl, rfl, rfl, rfl, rfl⟩ := h
  have hcnt : c = 0 ∨ c = 1 := by omega
  rcases hcnt with rfl | rfl <;>
    simp [lwm2m_lte_reg_handler_notify, hedge, h1, h2, k_mutex_lock, k_mutex_unlock,
      k_sem_give, load, emit, set_modem_connected_to_network, summary, calls]

/-- The pass in `CONNECTED` with the link down and engine pause succeeding, on summaries. -/
theorem summary_pass_suspend (x : Ext) (s : Sys) (rc usl : Bool) (n : Nat)
    (hx : x.lwm2m_engine_pause = 0)
    (h : summary s = (.CONNECTED, rc, false, usl, ⟨0, 1⟩, n)) :
    ∃ s', main_loop_pass x s = some s' ∧
      summary s' = (.LTE_OFFLINE, rc, false, usl, ⟨1, 1⟩, n) := by
  obtain ⟨cs', rc', mc', usl', sem, lm, sl, tr⟩ := s
  simp only [summary, calls, Prod.mk.injEq] at h
  obtain ⟨rfl, rfl, rfl, rfl, rfl, rfl⟩ := h
  simp [main_loop_pass, suspend_lwm2m_engine, state_trigger_and_unlock, k_mutex_lock,
    k_mutex_unlock, k_sem_give, load, emit, set_client_state, summary, calls, hx]

/-- The pass in `LTE_OFFLINE` with the link up, on summaries. -/
theorem summary_pass_resume (x : Ext) (s : Sys) (rc usl : Bool) (n : Nat)
    (h : summary s = (.LTE_OFFLINE, rc, true, usl, ⟨0, 1⟩, n)) :
    ∃ s', main_loop_pass x s = some s' ∧
      summary s' = (.CONNECTING, rc, true, usl, ⟨1, 1⟩, n + 1) := by
  obtain ⟨cs', rc', mc', usl', sem, lm, sl, tr⟩ := s
  simp only [summary, calls, Prod.mk.injEq] at h
  obtain ⟨rfl, rfl, rfl, rfl, rfl, rfl⟩ := h
  simp [main_loop_pass, state_trigger_and_unlock, k_mutex_lock, k_mutex_unlock, k_sem_give,
    load, emit, set_client_state, summary, calls]

/-- The observation is read off the summary. -/
theorem observe_of_summary (s : Sys) (cs : client_state) (rc mc usl : Bool) (c l n : Nat)
    (h : summary s = (cs, rc, mc, usl, ⟨c, l⟩, n)) : observe s = (cs, mc, c, n) := by
  simp only [summary, Prod.mk.injEq] at h
  obtain ⟨h1, _, h3, _, h5, h6⟩ := h
  simp [observe, h1, h3, h5, h6]

/-- Claim C10. From boot with the link up (`START`, nothing pending), the round trip with
engine start and engine pause succeeding and the hook leaving registration-complete alone
visits, after its passes and callbacks, `CONNECTING`, `CONNECTED`, `CONNECTED`, `CONNECTED`
with the link down, `LTE_OFFLINE`, `LTE_OFFLINE` with the link up, `CONNECTING`, `CONNECTED`.
Every step returns; the count of the wake signal is 1 in the row before each of the three
waits, so the driver is let into each pass in which it must act; engine resume is called
once, in the pass that follows the link restore. Each row is (state, link status, count of
the wake signal, engine-resume calls so far). -/
theorem full_round_trip (server_lifetime : Nat) (x1 x2 x3 x4 : Ext)
    (manage1 manage2 : lwm2m_rd_client_event → lwm2m_rd_client_event)
    (lost restored : lte_lc_nw_reg_status)
    (hstart : x1.lwm2m_rd_client_start = 0) (hpause : x3.lwm2m_engine_pause = 0)
    (hm1 : manage1 .LWM2M_RD_CLIENT_EVENT_REGISTRATION_COMPLETE
      = .LWM2M_RD_CLIENT_EVENT_REGISTRATION_COMPLETE)
    (hm2 : manage2 .LWM2M_RD_CLIENT_EVENT_REGISTRATION_COMPLETE
      = .LWM2M_RD_CLIENT_EVENT_REGISTRATION_COMPLETE)
    (hlost : lte_connected lost = false) (hrestored : lte_connected restored = true) :
    observe (boot_link_up server_lifetime) = (.START, true, 0, 0) ∧
    visits (round_trip x1 x2 x3 x4 manage1 manage2 lost restored)
        (boot_link_up server_lifetime)
      = [(.CONNECTING, true, 1, 0),
         (.CONNECTED, true, 1, 0),
         (.CONNECTED, true, 0, 0),
         (.CONNECTED, false, 1, 0),
         (.LTE_OFFLINE, false, 1, 0),
         (.LTE_OFFLINE, true, 1, 0),
         (.CONNECTING, true, 1, 1),
         (.CONNECTED, true, 1, 1)] := by
  refine ⟨rfl, ?_⟩
  have r0 : summary (boot_link_up server_lifetime)
      = (.START, false, true, true, ⟨0, 1⟩, 0) := rfl
  obtain ⟨s1, e1, r1⟩ := summary_pass_start x1 _ _ _ _ _ hstart r0
  have r2 := summary_registration_complete manage1 s1 _ _ _ _ hm1 r1
  obtain ⟨s3, e3, r3⟩ := summary_wait _ _ _ _ _ _ r2
  obtain ⟨s4, e4, r4⟩ := summary_pass_connected x2 s3 _ _ _ _ r3
  have r5 := summary_notify lost s4 _ _ _ _ _ _ (by simp [hlost]) (by decide) (by decide)
    (by decide) r4
  obtain ⟨s6, e6, r6⟩ := summary_wait _ _ _ _ _ _ r5
  rw [hlost] at r6
  obtain ⟨s7, e7, r7⟩ := summary_pass_suspend x3 s6 _ _ _ hpause r6
  have r8 := summary_notify restored s7 _ _ _ _ _ _ (by simp [hrestored]) (by decide)
    (by decide) (by decide) r7
  obtain ⟨s9, e9, r9⟩ := summary_wait _ _ _ _ _ _ r8
  rw [hrestored] at r9
  obtain ⟨s10, e10, r10⟩ := summary_pass_resume x4 s9 _ _ _ r9
  have r11 := summary_registration_complete manage2 s10 _ _ _ _ hm2 r10
  rw [hlost] at r5
  rw [hrestored] at r8
  simp only [round_trip, visits, deliver, e1, e3, e4, e6, e7, e9, e10,
    observe_of_summary _ _ _ _ _ _ _ _ r1, observe_of_summary _ _ _ _ _ _ _ _ r2,
    observe_of_summary _ _ _ _ _ _ _ _ r4, observe_of_summary _ _ _ _ _ _ _ _ r5,
    observe_of_summary _ _ _ _ _ _ _ _ r7, observe_of_summary _ _ _ _ _ _ _ _ r8,
    observe_of_summary _ _ _ _ _ _ _ _ r10, observe_of_summary _ _ _ _ _ _ _ _ r11]

/-- Witness for C10: the round trip with every call returning zero, hooks that leave the
event alone, `NOT_REGISTERED` as the link loss and `REGISTERED_HOME` as the link restore. -/
theorem full_round_trip_witness :
    visits (round_trip ⟨0, 0, 0, [], false, 60, 0, 0⟩ ⟨0, 0, 0, [], false, 60, 0, 0⟩
        ⟨0, 0, 0, [], false, 60, 0, 0⟩ ⟨0, 0, 0, [], false, 60, 0, 0⟩ id id
        .LTE_LC_NW_REG_NOT_REGISTERED .LTE_LC_NW_REG_REGISTERED_HOME) (boot_link_up 0)
      = [(.CONNECTING, true, 1, 0),
         (.CONNECTED, true, 1, 0),
         (.CONNECTED, true, 0, 0),
         (.CONNECTED, false, 1, 0),
         (.LTE_OFFLINE, false, 1, 0),
         (.LTE_OFFLINE, true, 1, 0),
         (.CONNECTING, true, 1, 1),
         (.CONNECTED, true, 1, 1)] :=
  (full_round_trip 0 ⟨0, 0, 0, [], false, 60, 0, 0⟩ ⟨0, 0, 0, [], false, 60, 0, 0⟩
    ⟨0, 0, 0, [], false, 60, 0, 0⟩ ⟨0, 0, 0, [], false, 60, 0, 0⟩ id id
    .LTE_LC_NW_REG_NOT_REGISTERED .LTE_LC_NW_REG_REGISTERED_HOME rfl rfl rfl rfl rfl rfl).2

/-! ## Effects of the dispatcher on the flags and on the wake signal -/

/-- A dropped event: the call only locks, reads the state and unlocks. -/
theorem rd_client_event_dropped (manage : lwm2m_rd_client_event → lwm2m_rd_client_event)
    (client_event : lwm2m_rd_client_event) (s : Sys)
    (h : s.client_state = .LTE_OFFLINE ∧
      client_event ≠ .LWM2M_RD_CLIENT_EVENT_ENGINE_SUSPENDED) :
    rd_client_event manage client_event s
      = { s with trace := s.trace ++ [.k_mutex_lock, .read .client_state, .k_mutex_unlock] } := by
  obtain ⟨cs, rc, mc, usl, sem, lm, sl, tr⟩ := s
  simp only at h
  simp [rd_client_event, h, k_mutex_lock, k_mutex_unlock, load, emit]

set_option maxHeartbeats 1000000 in
/-- The whole effect of an event that is not dropped, in terms of the event as the hook
leaves it. -/
theorem rd_client_event_effect (manage : lwm2m_rd_client_event → lwm2m_rd_client_event)
    (client_event : lwm2m_rd_client_event) (s : Sys)
    (h : ¬ (s.client_state = .LTE_OFFLINE ∧
      client_event ≠ .LWM2M_RD_CLIENT_EVENT_ENGINE_SUSPENDED)) :
    (rd_client_event manage client_event s).client_state
      = spec_transition s.client_state (manage client_event) ∧
    (rd_client_event manage client_event s).update_session_lifetime
      = (s.update_session_lifetime ||
          decide (manage client_event = .LWM2M_RD_CLIENT_EVENT_BOOTSTRAP_REG_COMPLETE)) ∧
    (rd_client_event manage client_event s).reconnect
      = (s.reconnect || decide (manage client_event = .LWM2M_RD_CLIENT_EVENT_NETWORK_ERROR)) ∧
    (rd_client_event manage client_event s).modem_connected_to_network
      = s.modem_connected_to_network ∧
    (rd_client_event manage client_event s).server_lifetime = s.server_lifetime ∧
    (rd_client_event manage client_event s).lte_mutex = s.lte_mutex ∧
    (rd_client_event manage client_event s).state_mutex
      = (if spec_transition s.client_state (manage client_event) ≠ s.client_state ∧
            manage client_event ≠ .LWM2M_RD_CLIENT_EVENT_DEREGISTER_FAILURE ∧
            manage client_event ≠ .LWM2M_RD_CLIENT_EVENT_DISCONNECT
          then (k_sem_give s).state_mutex else s.state_mutex) ∧
    calls .k_sem_give (rd_client_event manage client_event s)
      = calls .k_sem_give s +
        (if spec_transition s.client_state (manage client_event) ≠ s.client_state ∧
            manage client_event ≠ .LWM2M_RD_CLIENT_EVENT_DEREGISTER_FAILURE ∧
            manage client_event ≠ .LWM2M_RD_CLIENT_EVENT_DISCONNECT
          then 1 else 0) := by
  obtain ⟨cs, rc, mc, usl, sem, lm, sl, tr⟩ := s
  simp only at h
  cases hm : manage client_event <;> cases cs <;>
    simp [rd_client_event, hm, h, spec_transition, state_trigger_and_unlock,
      state_set_and_unlock, k_mutex_lock, k_mutex_unlock, k_sem_give, load, emit,
      set_client_state, set_update_session_lifetime, set_reconnect, calls] <;>
    simp_all


/-- Claim C13, what fails: in `LTE_OFFLINE` an engine-suspended event is not dropped; the
switch is applied to what the hook leaves in `client_event`, so a hook that leaves
network-error there makes this call, made in `LTE_OFFLINE` for an event that was not a network
error, set `reconnect`. -/
theorem rd_client_event_flags_counterexample :
    ({ boot 0 with client_state := .LTE_OFFLINE } : Sys).client_state = .LTE_OFFLINE ∧
    ({ boot 0 with client_state := .LTE_OFFLINE } : Sys).reconnect = false ∧
    (rd_client_event (fun _ => .LWM2M_RD_CLIENT_EVENT_NETWORK_ERROR)
        .LWM2M_RD_CLIENT_EVENT_ENGINE_SUSPENDED
        { boot 0 with client_state := .LTE_OFFLINE }).reconnect = true := by
  decide

/-- Claim C13, amended. For every state, event and hook, `rd_client_event` never changes the
link status; `update_session_lifetime` is true afterwards exactly when it was true before or
the call is not dropped by the `LTE_OFFLINE` guard and the event as the hook leaves it is
bootstrap-registration complete; `reconnect` likewise with network error. So each flag is set
only by its event, keeps its prior value otherwise and is never cleared. -/
theorem rd_client_event_flags (manage : lwm2m_rd_client_event → lwm2m_rd_client_event)
    (client_event : lwm2m_rd_client_event) (s : Sys) :
    (rd_client_event manage client_event s).modem_connected_to_network
      = s.modem_connected_to_network ∧
    ((rd_client_event manage client_event s).update_session_lifetime = true ↔
      s.update_session_lifetime = true ∨
      (¬ (s.client_state = .LTE_OFFLINE ∧
          client_event ≠ .LWM2M_RD_CLIENT_EVENT_ENGINE_SUSPENDED) ∧
        manage client_event = .LWM2M_RD_CLIENT_EVENT_BOOTSTRAP_REG_COMPLETE)) ∧
    ((rd_client_event manage client_event s).reconnect = true ↔
      s.reconnect = true ∨
      (¬ (s.client_state = .LTE_OFFLINE ∧
          client_event ≠ .LWM2M_RD_CLIENT_EVENT_ENGINE_SUSPENDED) ∧
        manage client_event = .LWM2M_RD_CLIENT_EVENT_NETWORK_ERROR)) := by
  by_cases h : s.client_state = .LTE_OFFLINE ∧
      client_event ≠ .LWM2M_RD_CLIENT_EVENT_ENGINE_SUSPENDED
  · rw [rd_client_event_dropped manage client_event s h]
    simp [h]
  · obtain ⟨_, h2, h3, h4, _⟩ := rd_client_event_effect manage client_event s h
    rw [h2, h3, h4]
    simp [h]

/-- Claim C14. Outside `LTE_OFFLINE`, an event that the switch sees as deregister-failure or
disconnect makes `client_state = START` and leaves the semaphore (hence the wake count,
whatever it is) and the number of posts as they were; every other event that changes
`client_state` posts the wake signal once. -/
theorem no_wake_transition (manage : lwm2m_rd_client_event → lwm2m_rd_client_event)
    (client_event : lwm2m_rd_client_event) (s : Sys)
    (h : s.client_state ≠ .LTE_OFFLINE) :
    (manage client_event = .LWM2M_RD_CLIENT_EVENT_DEREGISTER_FAILURE ∨
      manage client_event = .LWM2M_RD_CLIENT_EVENT_DISCONNECT →
        (rd_client_event manage client_event s).client_state = .START ∧
        (rd_client_event manage client_event s).state_mutex = s.state_mutex ∧
        calls .k_sem_give (rd_client_event manage client_event s) = calls .k_sem_give s) ∧
    (manage client_event ≠ .LWM2M_RD_CLIENT_EVENT_DEREGISTER_FAILURE →
      manage client_event ≠ .LWM2M_RD_CLIENT_EVENT_DISCONNECT →
      (rd_client_event manage client_event s).client_state ≠ s.client_state →
        calls .k_sem_give (rd_client_event manage client_event s)
          = calls .k_sem_give s + 1 ∧
        (rd_client_event manage client_event s).state_mutex
          = (k_sem_give s).state_mutex) := by
  have hnd : ¬ (s.client_state = .LTE_OFFLINE ∧
      client_event ≠ .LWM2M_RD_CLIENT_EVENT_ENGINE_SUSPENDED) := fun hd => h hd.1
  obtain ⟨h1, _, _, _, _, _, h7, h8⟩ := rd_client_event_effect manage client_event s hnd
  refine ⟨?_, ?_⟩
  · intro he
    rw [h1, h7, h8]
    rcases he with he | he <;> simp [he, spec_transition]
  · intro hdf hdisc hchg
    rw [h1] at hchg
    rw [h7, h8]
    simp [hchg, hdf, hdisc]

/-- Witness for C14: a disconnect received in `CONNECTED` with the signal pending. -/
theorem no_wake_transition_witness :
    (rd_client_event id .LWM2M_RD_CLIENT_EVENT_DISCONNECT
        { boot 0 with client_state := .CONNECTED,
                      state_mutex := { count := 1, limit := 1 } }).client_state = .START ∧
    (rd_client_event id .LWM2M_RD_CLIENT_EVENT_DISCONNECT
        { boot 0 with client_state := .CONNECTED,
                      state_mutex := { count := 1, limit := 1 } }).state_mutex.count = 1 :=
  have h := (no_wake_transition id .LWM2M_RD_CLIENT_EVENT_DISCONNECT
    { boot 0 with client_state := .CONNECTED, state_mutex := { count := 1, limit := 1 } }
    (by decide)).1 (Or.inr rfl)
  ⟨h.1, by rw [h.2.1]⟩

/-- Claim C15, what fails: the hook is handed `client_event` by reference and the switch is
applied to what it leaves there. In `CONNECTED`, on a registration-update timeout, a hook that
leaves the event alone gives `CONNECTING` with `reconnect` clear, a hook that leaves
network-error gives `NETWORK_ERROR` with `reconnect` set. -/
theorem hook_interference_counterexample :
    (rd_client_event id .LWM2M_RD_CLIENT_EVENT_REG_TIMEOUT
        { boot 0 with client_state := .CONNECTED }).client_state = .CONNECTING ∧
    (rd_client_event (fun _ => .LWM2M_RD_CLIENT_EVENT_NETWORK_ERROR)
        .LWM2M_RD_CLIENT_EVENT_REG_TIMEOUT
        { boot 0 with client_state := .CONNECTED }).client_state = .NETWORK_ERROR ∧
    (rd_client_event id .LWM2M_RD_CLIENT_EVENT_REG_TIMEOUT
        { boot 0 with client_state := .CONNECTED }).reconnect = false ∧
    (rd_client_event (fun _ => .LWM2M_RD_CLIENT_EVENT_NETWORK_ERROR)
        .LWM2M_RD_CLIENT_EVENT_REG_TIMEOUT
        { boot 0 with client_state := .CONNECTED }).reconnect = true := by
  decide

/-- Claim C15, amended. The hook bears on the outcome only through the value it leaves in
`client_event`: two hooks that leave the same value there give the same configuration (state,
flags, semaphore, trace), and for an event dropped by the `LTE_OFFLINE` guard the hook is not
reached, so every two hooks give the same configuration. -/
theorem hook_bearing (manage1 manage2 : lwm2m_rd_client_event → lwm2m_rd_client_event)
    (client_event : lwm2m_rd_client_event) (s : Sys)
    (h : (s.client_state = .LTE_OFFLINE ∧
        client_event ≠ .LWM2M_RD_CLIENT_EVENT_ENGINE_SUSPENDED) ∨
      manage1 client_event = manage2 client_event) :
    rd_client_event manage1 client_event s = rd_client_event manage2 client_event s := by
  rcases h with h | h
  · rw [rd_client_event_dropped manage1 client_event s h,
      rd_client_event_dropped manage2 client_event s h]
  · unfold rd_client_event
    rw [h]

/-- Witness for C15: a registration failure in `CONNECTED` under two hooks that both leave
the event alone. -/
theorem hook_bearing_witness :
    rd_client_event id .LWM2M_RD_CLIENT_EVENT_REGISTRATION_FAILURE
        { boot 0 with client_state := .CONNECTED }
      = rd_client_event (fun e => e) .LWM2M_RD_CLIENT_EVENT_REGISTRATION_FAILURE
        { boot 0 with client_state := .CONNECTED } :=
  hook_bearing id (fun e => e) .LWM2M_RD_CLIENT_EVENT_REGISTRATION_FAILURE
    { boot 0 with client_state := .CONNECTED } (Or.inr rfl)

/-! ## Boot -/

/-- Claim C12, what fails: at boot `update_session_lifetime` is true, so the boot values are
not {`START`, false, false, false}. -/
theorem boot_values_counterexample :
    ¬ ((boot 0).client_state = .START ∧ (boot 0).modem_connected_to_network = false ∧
        (boot 0).update_session_lifetime = false ∧ (boot 0).reconnect = false) := by
  decide

/-- Claim C12, amended. At boot `client_state = START`, the link status is false,
`update_session_lifetime` is true ("Enable session lifetime check for initial boot",
main.c:95-96) and `reconnect` is false; the wake signal has count 0 and the lock is free. -/
theorem boot_values (server_lifetime : Nat) :
    (boot server_lifetime).client_state = .START ∧
    (boot server_lifetime).modem_connected_to_network = false ∧
    (boot server_lifetime).update_session_lifetime = true ∧
    (boot server_lifetime).reconnect = false ∧
    (boot server_lifetime).state_mutex = { count := 0, limit := 1 } ∧
    (boot server_lifetime).lte_mutex = 0 :=
  ⟨rfl, rfl, rfl, rfl, rfl, rfl⟩

/-- Claim C20, the code at two failing inputs. With secure transport configured: when the
first existence check fails and the second succeeds, and when the first delete fails and the
second succeeds, `reset_credentials` returns 0 (the later call overwrites `err`) and `main`
goes on to the driver loop. An error of the second check or of the second delete is
returned, and `main` returns it before the loop. -/
theorem reset_credentials_overwrites_err :
    (reset_credentials first_check_fails (boot 0)).1 = 0 ∧
    (∃ s, main_boot (secure_boot first_check_fails) (boot 0) = .driver_loop s) ∧
    (reset_credentials first_delete_fails (boot 0)).1 = 0 ∧
    (∃ s, main_boot (secure_boot first_delete_fails) (boot 0) = .driver_loop s) ∧
    (∃ s, main_boot (secure_boot { first_check_fails with exists_identity := (-5, none) })
      (boot 0) = .returned (-5) s) ∧
    (∃ s, main_boot (secure_boot { first_delete_fails with delete_identity := -5 })
      (boot 0) = .returned (-5) s) :=
  ⟨rfl, ⟨_, rfl⟩, rfl, ⟨_, rfl⟩, ⟨_, rfl⟩, ⟨_, rfl⟩⟩

/-! ## The reconnection policy -/

/-- Claim C19. When the connect attempt fails `k` times (the results `fails`) and then
succeeds, `modem_connect` returns after exactly `k + 1` connect attempts, each of the `k`
failures followed by one `lte_lc_offline` and one sleep of 60 seconds, and changes nothing but
the trace; as long as every attempt has failed it has not returned. -/
theorem modem_connect_policy (conneval : Bool) (fails : List Int) (ok : Int)
    (rest : List Int) (s : Sys) (hf : ∀ r ∈ fails, r < 0) (hok : 0 ≤ ok) :
    modem_connect conneval (fails ++ ok :: rest) s
      = some { s with trace := s.trace ++ (retry_ops fails.length ++
          ([.lte_lc_connect, .lte_lc_lte_mode_get] ++
            (if conneval then [.lwm2m_utils_enable_conneval] else []))) } ∧
    modem_connect conneval fails s = none ∧
    (retry_ops fails.length).count .lte_lc_connect = fails.length ∧
    (retry_ops fails.length).count .lte_lc_offline = fails.length ∧
    (retry_ops fails.length).count (.k_sleep 60) = fails.length ∧
    (∀ o ∈ retry_ops fails.length,
      o = .lte_lc_connect ∨ o = .lte_lc_offline ∨ o = .k_sleep 60) := by
  induction fails generalizing s with
  | nil =>
    have hn : ¬ ok < 0 := by omega
    cases conneval <;> simp [modem_connect, retry_ops, hn, emit]
  | cons r fails ih =>
    have hr : r < 0 := hf r (List.mem_cons_self _ _)
    have hf' : ∀ r' ∈ fails, r' < 0 := fun r' h => hf r' (List.mem_cons_of_mem _ h)
    obtain ⟨h1, h2, h3, h4, h5, h6⟩ :=
      ih (emit (.k_sleep 60) (emit .lte_lc_offline (emit .lte_lc_connect s))) hf'
    refine ⟨?_, ?_, ?_, ?_, ?_, ?_⟩
    · simp only [emit] at h1
      simpa [modem_connect, hr, emit, retry_ops] using h1
    · simp only [emit] at h2
      simpa [modem_connect, hr, emit] using h2
    · simp [retry_ops, h3]
    · simp [retry_ops, h4]
    · simp [retry_ops, h5]
    · intro o ho
      simp only [List.length_cons, retry_ops, List.mem_append, List.mem_cons,
        List.mem_singleton, List.not_mem_nil, or_false] at ho
      rcases ho with (ho | ho | ho) | ho
      · exact Or.inl ho
      · exact Or.inr (Or.inl ho)
      · exact Or.inr (Or.inr ho)
      · exact h6 o ho

/-- Witness for C19: two failed attempts, then success. -/
theorem modem_connect_policy_witness :
    modem_connect false [-1, -116, 0] (boot 0)
      = some { boot 0 with trace :=
          [.lte_lc_connect, .lte_lc_offline, .k_sleep 60,
           .lte_lc_connect, .lte_lc_offline, .k_sleep 60,
           .lte_lc_connect, .lte_lc_lte_mode_get] } ∧
    modem_connect false [-1, -116] (boot 0) = none :=
  have h := modem_connect_policy false [-1, -116] 0 [] (boot 0) (by decide) (by decide)
  ⟨h.1, h.2.1⟩

/-! ## Paths -/

/-- The operations of one call of the link-monitor handler form one of its paths, appended to
the trace; the flags, the lifetime resource and the lock count are as before. -/
theorem lwm2m_lte_reg_handler_notify_path (nw_reg_status : lte_lc_nw_reg_status) (s : Sys) :
    ops_since s (lwm2m_lte_reg_handler_notify nw_reg_status s) ∈ notify_paths ∧
    (lwm2m_lte_reg_handler_notify nw_reg_status s).trace
      = s.trace ++ ops_since s (lwm2m_lte_reg_handler_notify nw_reg_status s) ∧
    (lwm2m_lte_reg_handler_notify nw_reg_status s).update_session_lifetime
      = s.update_session_lifetime ∧
    (lwm2m_lte_reg_handler_notify nw_reg_status s).reconnect = s.reconnect ∧
    (lwm2m_lte_reg_handler_notify nw_reg_status s).lte_mutex = s.lte_mutex := by
  obtain ⟨cs, rc, mc, usl, sem, lm, sl, tr⟩ := s
  by_cases h : lte_connected nw_reg_status = mc <;> cases cs <;>
    simp [lwm2m_lte_reg_handler_notify, h, k_mutex_lock, k_mutex_unlock, k_sem_give, load,
      emit, set_modem_connected_to_network, ops_since, notify_paths]

/-- The operations of `suspend_lwm2m_engine` form one of its paths, appended to the trace. -/
theorem suspend_lwm2m_engine_path (x : Ext) (s : Sys) :
    ops_since s (suspend_lwm2m_engine x s) ∈ suspend_paths ∧
    (suspend_lwm2m_engine x s).trace = s.trace ++ ops_since s (suspend_lwm2m_engine x s) := by
  obtain ⟨cs, rc, mc, usl, sem, lm, sl, tr⟩ := s
  by_cases h : x.lwm2m_engine_pause = 0 <;> cases cs <;>
    simp [suspend_lwm2m_engine, h, state_trigger_and_unlock, k_mutex_lock, k_mutex_unlock,
      k_sem_give, load, emit, set_client_state, set_reconnect, ops_since, suspend_paths]

/-- When `modem_connect` returns it has changed nothing but the trace, to which it has
appended a connect attempt followed by link control operations only. -/
theorem modem_connect_ops (conneval : Bool) (rets : List Int) (s s' : Sys)
    (h : modem_connect conneval rets s = some s') :
    ∃ ops, s' = { s with trace := s.trace ++ .lte_lc_connect :: ops } ∧
      ∀ o ∈ ops, o ∈ reconnect_ops := by
  induction rets generalizing s with
  | nil => simp [modem_connect] at h
  | cons ret rest ih =>
    by_cases hr : ret < 0
    · simp only [modem_connect, hr, if_true] at h
      obtain ⟨ops, hops, hmem⟩ := ih _ h
      refine ⟨[.lte_lc_offline, .k_sleep 60, .lte_lc_connect] ++ ops, by simp [hops, emit], ?_⟩
      intro o ho
      rcases List.mem_append.1 ho with ho | ho
      · revert ho; simp [reconnect_ops]; tauto
      · exact hmem o ho
    · cases conneval
      · simp [modem_connect, hr, emit] at h
        exact ⟨[.lte_lc_lte_mode_get], by simp [← h], by simp [reconnect_ops]⟩
      · simp [modem_connect, hr, emit] at h
        exact ⟨[.lte_lc_lte_mode_get, .lwm2m_utils_enable_conneval], by simp [← h],
          by simp [reconnect_ops]⟩

/-- A driver pass returns; in `NETWORK_ERROR` with `reconnect` set it returns provided one
connect attempt of the reconnection policy succeeds. -/
theorem main_loop_pass_returns (x : Ext) (s : Sys)
    (hconn : s.client_state = .NETWORK_ERROR → s.reconnect = true →
      ∃ r ∈ x.lte_lc_connect, 0 ≤ r) :
    ∃ s', main_loop_pass x s = some s' := by
  obtain ⟨cs, rc, mc, usl, sem, lm, sl, tr⟩ := s
  simp only at hconn
  cases cs
  case NETWORK_ERROR =>
    cases rc
    · exact ⟨_, rfl⟩
    · obtain ⟨ops, heq, _⟩ := modem_connect_returns
        x.CONFIG_LWM2M_CLIENT_UTILS_LTE_CONNEVAL x.lte_lc_connect (hconn rfl rfl)
        (emit .lte_lc_offline (set_reconnect false (load .reconnect
          (emit (.lwm2m_rd_client_stop false) (state_trigger_and_unlock .START
            (load .client_state
              (k_mutex_lock ⟨.NETWORK_ERROR, true, mc, usl, sem, lm, sl, tr⟩)))))))
      exact ⟨_, heq⟩
  all_goals
    simp only [main_loop_pass, k_mutex_lock, load, emit]
    repeat' split
    all_goals exact ⟨_, rfl⟩

/-- The operations of a driver pass that has returned are one of the paths of the pass,
followed in the reconnect case by the further link operations of `modem_connect`, appended to
the trace; the lock count is as before. -/
theorem main_loop_pass_path (x : Ext) (s s' : Sys) (h : main_loop_pass x s = some s') :
    ∃ tail, (∃ head ∈ pass_paths (x.CONFIG_LWM2M_ENGINE_DEFAULT_LIFETIME % 2 ^ 32),
        s'.trace = s.trace ++ (head ++ tail)) ∧
      (∀ o ∈ tail, o ∈ reconnect_ops) ∧
      s'.lte_mutex = s.lte_mutex := by
  obtain ⟨cs, rc, mc, usl, sem, lm, sl, tr⟩ := s
  cases cs
  case NETWORK_ERROR =>
    cases rc
    · simp [main_loop_pass, state_trigger_and_unlock, k_mutex_lock, k_mutex_unlock,
        k_sem_give, load, emit, set_client_state] at h
      subst h
      refine ⟨[], ?_, ?_, ?_⟩ <;> simp [pass_paths]
    · simp [main_loop_pass, state_trigger_and_unlock, k_mutex_lock, k_mutex_unlock,
        k_sem_give, load, emit, set_client_state, set_reconnect] at h
      obtain ⟨ops, hops, hmem⟩ := modem_connect_ops _ _ _ _ h
      subst hops
      refine ⟨ops, ?_, hmem, ?_⟩ <;> simp [pass_paths]
  case START =>
    by_cases h1 : x.lwm2m_rd_client_start = 0 <;>
      simp [main_loop_pass, state_trigger_and_unlock, k_mutex_lock, k_mutex_unlock,
        k_sem_give, load, emit, set_client_state, h1] at h <;>
      subst h <;> refine ⟨[], ?_, ?_, ?_⟩ <;> simp [pass_paths]
  case CONNECTED =>
    cases mc
    · by_cases h2 : x.lwm2m_engine_pause = 0 <;>
        simp [main_loop_pass, suspend_lwm2m_engine, state_trigger_and_unlock, k_mutex_lock,
          k_mutex_unlock, k_sem_give, load, emit, set_client_state, set_reconnect, h2] at h <;>
        subst h <;> refine ⟨[], ?_, ?_, ?_⟩ <;> simp [pass_paths]
    · cases usl
      · simp [main_loop_pass, k_mutex_lock, k_mutex_unlock, load, emit] at h
        subst h
        refine ⟨[], ?_, ?_, ?_⟩ <;> simp [pass_paths]
      · simp [main_loop_pass, rd_client_update_lifetime, k_mutex_lock, k_mutex_unlock, load,
          emit, set_update_session_lifetime] at h
        subst h
        refine ⟨[], ?_, ?_, ?_⟩ <;> (try split_ifs) <;> simp [pass_paths]
  case LTE_OFFLINE =>
    cases mc <;>
      simp [main_loop_pass, state_trigger_and_unlock, k_mutex_lock, k_mutex_unlock,
        k_sem_give, load, emit, set_client_state] at h <;>
      subst h <;> refine ⟨[], ?_, ?_, ?_⟩ <;> simp [pass_paths]
  all_goals
    simp [main_loop_pass, state_set_and_unlock, k_mutex_lock, k_mutex_unlock, load, emit,
      set_client_state] at h
    subst h
    refine ⟨[], ?_, ?_, ?_⟩ <;> simp [pass_paths]

/-! ## The lock -/

/-- The operations appended to the trace are the operations since. -/
theorem ops_since_eq (s s' : Sys) (ops : List Op) (h : s'.trace = s.trace ++ ops) :
    ops_since s s' = ops := by
  simp [ops_since, h]

/-- Calls after a stretch of operations: the calls before plus those of the stretch. -/
theorem calls_eq (o : Op) (s s' : Sys) (ops : List Op) (h : s'.trace = s.trace ++ ops) :
    calls o s' = calls o s + ops.count o := by
  simp [calls, h]

/-- The lock flag runs through two stretches of operations one after the other. -/
theorem lock_scan_append (ok : Bool → Op → Bool) (held : Bool) (a b : List Op) :
    lock_scan ok held (a ++ b) = (lock_scan ok held a).bind (fun h => lock_scan ok h b) := by
  induction a generalizing held with
  | nil => simp [lock_scan]
  | cons o a ih =>
    by_cases h : ok held o = true
    · simp [lock_scan, h, ih]
    · simp [lock_scan, h]

/-- Operations that pass the check and leave the lock alone leave the flag as it is. -/
theorem lock_scan_neutral (ok : Bool → Op → Bool) (held : Bool) (ops : List Op)
    (h : ∀ o ∈ ops, ok held o = true ∧ lock_after held o = held) :
    lock_scan ok held ops = some held := by
  induction ops with
  | nil => rfl
  | cons o ops ih =>
    have ho := h o (List.mem_cons_self _ _)
    simp only [lock_scan, ho.1, ho.2, if_true]
    exact ih (fun o' h' => h o' (List.mem_cons_of_mem _ h'))

/-- The link operations of `modem_connect` neither touch the lock nor access a variable. -/
theorem reconnect_ops_neutral (held : Bool) (o : Op) (h : o ∈ reconnect_ops) :
    lock_after held o = held ∧ unlock_held held o = true ∧
    (∀ vars, writes_held vars held o = true ∧ guarded vars held o = true ∧
      accesses_free vars held o = true) := by
  simp only [reconnect_ops, List.mem_cons, List.mem_singleton, List.not_mem_nil,
    or_false] at h
  rcases h with rfl | rfl | rfl | rfl | rfl <;>
    simp [lock_after, unlock_held, writes_held, guarded, accesses_held, lock_free,
      accesses_free]

/-- A path of the driver pass followed by link operations scans like the path alone. -/
theorem lock_scan_pass (ok : Bool → Op → Bool) (head tail : List Op) (b : Bool)
    (hhead : lock_scan ok false head = some b)
    (htail : ∀ o ∈ tail, ok b o = true ∧ lock_after b o = b) :
    lock_scan ok false (head ++ tail) = some b := by
  rw [lock_scan_append, hhead]
  exact lock_scan_neutral ok b tail htail

/-- Every path of the driver pass starts by taking the lock, never unlocks a free lock,
writes the state and the link status only under the lock, never takes the lock while holding
it, accesses the two flags only with the lock free, and ends with the lock free. -/
theorem pass_paths_checked (lifetime : Nat) (head : List Op)
    (h : head ∈ pass_paths lifetime) :
    head.head? = some .k_mutex_lock ∧
    lock_scan unlock_held false head = some false ∧
    lock_scan (writes_held state_vars) false head = some false ∧
    lock_scan (guarded state_vars) false head = some false ∧
    lock_scan (accesses_free flag_vars) false head = some false := by
  simp only [pass_paths, List.mem_cons, List.mem_singleton, List.not_mem_nil, or_false] at h
  rcases h with rfl | rfl | rfl | rfl | rfl | rfl | rfl | rfl | rfl | rfl | rfl | rfl <;>
    simp [lock_scan, lock_after, unlock_held, writes_held, guarded, accesses_held,
      lock_free, accesses_free, state_vars, flag_vars]

/-- Every path of the dispatcher starts by taking the lock, never unlocks a free lock, and
accesses all four variables only under the lock, without nesting. -/
theorem dispatcher_paths_checked (p : List Op) (h : p ∈ dispatcher_paths) :
    p.head? = some .k_mutex_lock ∧
    lock_scan unlock_held false p = some false ∧
    lock_scan (writes_held state_vars) false p = some false ∧
    lock_scan (guarded all_vars) false p = some false := by
  revert p
  decide

/-- Every path of the link-monitor handler starts by taking the lock, never unlocks a free
lock, and accesses all four variables only under the lock, without nesting. -/
theorem notify_paths_checked (p : List Op) (h : p ∈ notify_paths) :
    p.head? = some .k_mutex_lock ∧
    lock_scan unlock_held false p = some false ∧
    lock_scan (writes_held state_vars) false p = some false ∧
    lock_scan (guarded all_vars) false p = some false := by
  revert p
  decide

/-- Every path of `suspend_lwm2m_engine`, entered with the lock held, writes the state only
under the lock, never takes the lock while holding it, sets `reconnect` with the lock free,
and ends with the lock free. -/
theorem suspend_paths_checked (p : List Op) (h : p ∈ suspend_paths) :
    lock_scan unlock_held true p = some false ∧
    lock_scan (writes_held state_vars) true p = some false ∧
    lock_scan (guarded state_vars) true p = some false ∧
    lock_scan (accesses_free flag_vars) true p = some false := by
  revert p
  decide

set_option maxHeartbeats 1000000 in
/-- The operations of one call of the dispatcher form one of its paths, appended to the
trace; the lock count is as before. -/
theorem rd_client_event_path (manage : lwm2m_rd_client_event → lwm2m_rd_client_event)
    (client_event : lwm2m_rd_client_event) (s : Sys) :
    ops_since s (rd_client_event manage client_event s) ∈ dispatcher_paths ∧
    (rd_client_event manage client_event s).trace
      = s.trace ++ ops_since s (rd_client_event manage client_event s) ∧
    (rd_client_event manage client_event s).lte_mutex = s.lte_mutex := by
  obtain ⟨cs, rc, mc, usl, sem, lm, sl, tr⟩ := s
  by_cases hdrop : cs = .LTE_OFFLINE ∧
      client_event ≠ .LWM2M_RD_CLIENT_EVENT_ENGINE_SUSPENDED
  · simp [rd_client_event, hdrop, k_mutex_lock, k_mutex_unlock, load, emit, ops_since,
      dispatcher_paths]
  · cases hm : manage client_event <;> cases cs <;>
      simp [rd_client_event, hm, hdrop, state_trigger_and_unlock, state_set_and_unlock,
        k_mutex_lock, k_mutex_unlock, k_sem_give, load, emit, set_client_state,
        set_update_session_lifetime, set_reconnect, ops_since, dispatcher_paths] <;>
      simp_all

/-- Claim C16. Entered with the lock free, `rd_client_event` and
`lwm2m_lte_reg_handler_notify` first take the lock and return with it free, and every driver
pass returns (in `NETWORK_ERROR` with `reconnect` set: once a connect attempt succeeds) and
reaches the wait with the lock free, for every state, event, status and result of engine
start, pause and resume; along each of them the held/free flag is followed through the
operations executed, and no unlock is executed while the flag says free. -/
theorem lock_balance (manage : lwm2m_rd_client_event → lwm2m_rd_client_event)
    (client_event : lwm2m_rd_client_event) (nw_reg_status : lte_lc_nw_reg_status)
    (x : Ext) (s : Sys) (hfree : s.lte_mutex = 0)
    (hconn : s.client_state = .NETWORK_ERROR → s.reconnect = true →
      ∃ r ∈ x.lte_lc_connect, 0 ≤ r) :
    ((ops_since s (rd_client_event manage client_event s)).head? = some .k_mutex_lock ∧
      lock_scan unlock_held false (ops_since s (rd_client_event manage client_event s))
        = some false ∧
      (rd_client_event manage client_event s).lte_mutex = 0) ∧
    ((ops_since s (lwm2m_lte_reg_handler_notify nw_reg_status s)).head?
        = some .k_mutex_lock ∧
      lock_scan unlock_held false (ops_since s (lwm2m_lte_reg_handler_notify nw_reg_status s))
        = some false ∧
      (lwm2m_lte_reg_handler_notify nw_reg_status s).lte_mutex = 0) ∧
    (∃ s', main_loop_pass x s = some s' ∧
      (ops_since s s').head? = some .k_mutex_lock ∧
      lock_scan unlock_held false (ops_since s s') = some false ∧
      s'.lte_mutex = 0) := by
  refine ⟨?_, ?_, ?_⟩
  · obtain ⟨hp, _, hl⟩ := rd_client_event_path manage client_event s
    obtain ⟨h1, h2, _⟩ := dispatcher_paths_checked _ hp
    exact ⟨h1, h2, by rw [hl, hfree]⟩
  · obtain ⟨hp, _, _, _, hl⟩ := lwm2m_lte_reg_handler_notify_path nw_reg_status s
    obtain ⟨h1, h2, _⟩ := notify_paths_checked _ hp
    exact ⟨h1, h2, by rw [hl, hfree]⟩
  · obtain ⟨s', hs'⟩ := main_loop_pass_returns x s hconn
    obtain ⟨tail, ⟨head, hhead, htr⟩, htail, hl⟩ := main_loop_pass_path x s s' hs'
    obtain ⟨h1, h2, _⟩ := pass_paths_checked _ head hhead
    refine ⟨s', hs', ?_, ?_, by rw [hl, hfree]⟩ <;> rw [ops_since_eq s s' _ htr]
    · cases head with
      | nil => simp at h1
      | cons o rest => simpa using h1
    · exact lock_scan_pass _ head tail false h2
        (fun o ho => ⟨(reconnect_ops_neutral false o (htail o ho)).2.1,
          (reconnect_ops_neutral false o (htail o ho)).1⟩)

/-- Witness for C16: a network-error event, a link loss and a driver pass with engine pause
failing, all entered in `CONNECTED` with the link down and the lock free. -/
theorem lock_balance_witness :
    (rd_client_event id .LWM2M_RD_CLIENT_EVENT_NETWORK_ERROR
        { boot 0 with client_state := .CONNECTED }).lte_mutex = 0 ∧
    ∃ s', main_loop_pass ⟨0, -1, 0, [], false, 60, 0, 0⟩
        { boot 0 with client_state := .CONNECTED } = some s' ∧
      lock_scan unlock_held false (ops_since { boot 0 with client_state := .CONNECTED } s')
        = some false ∧
      s'.lte_mutex = 0 :=
  have h := lock_balance id .LWM2M_RD_CLIENT_EVENT_NETWORK_ERROR
    .LTE_LC_NW_REG_NOT_REGISTERED ⟨0, -1, 0, [], false, 60, 0, 0⟩
    { boot 0 with client_state := .CONNECTED } rfl (fun hne => by simp at hne)
  have ⟨s', hs⟩ := h.2.2
  ⟨h.1.2.2, s', hs.1, hs.2.2.1, hs.2.2.2⟩

/-- Claim C17. In every call of `rd_client_event` and of `lwm2m_lte_reg_handler_notify` and
in every driver pass (entered with the lock free), and in every call of
`suspend_lwm2m_engine` (entered with the lock held), each assignment to `client_state` and
each assignment to `modem_connected_to_network` is executed while the held/free flag of the
executing context says held. -/
theorem writes_under_lock (manage : lwm2m_rd_client_event → lwm2m_rd_client_event)
    (client_event : lwm2m_rd_client_event) (nw_reg_status : lte_lc_nw_reg_status)
    (x : Ext) (s : Sys)
    (hconn : s.client_state = .NETWORK_ERROR → s.reconnect = true →
      ∃ r ∈ x.lte_lc_connect, 0 ≤ r) :
    lock_scan (writes_held state_vars) false
        (ops_since s (rd_client_event manage client_event s)) = some false ∧
    lock_scan (writes_held state_vars) false
        (ops_since s (lwm2m_lte_reg_handler_notify nw_reg_status s)) = some false ∧
    lock_scan (writes_held state_vars) true
        (ops_since s (suspend_lwm2m_engine x s)) = some false ∧
    (∃ s', main_loop_pass x s = some s' ∧
      lock_scan (writes_held state_vars) false (ops_since s s') = some false) := by
  refine ⟨?_, ?_, ?_, ?_⟩
  · exact (dispatcher_paths_checked _ (rd_client_event_path manage client_event s).1).2.2.1
  · exact (notify_paths_checked _ (lwm2m_lte_reg_handler_notify_path nw_reg_status s).1).2.2.1
  · exact (suspend_paths_checked _ (suspend_lwm2m_engine_path x s).1).2.1
  · obtain ⟨s', hs'⟩ := main_loop_pass_returns x s hconn
    obtain ⟨tail, ⟨head, hhead, htr⟩, htail, _⟩ := main_loop_pass_path x s s' hs'
    refine ⟨s', hs', ?_⟩
    rw [ops_since_eq s s' _ htr]
    exact lock_scan_pass _ head tail false (pass_paths_checked _ head hhead).2.2.1
      (fun o ho => ⟨((reconnect_ops_neutral false o (htail o ho)).2.2 state_vars).1,
        (reconnect_ops_neutral false o (htail o ho)).1⟩)

/-- Witness for C17: the driver pass in `CONNECTED` with the link down and engine pause
failing, which writes `client_state` twice. -/
theorem writes_under_lock_witness :
    ∃ s', main_loop_pass ⟨0, -1, 0, [], false, 60, 0, 0⟩
        { boot 0 with client_state := .CONNECTED } = some s' ∧
      lock_scan (writes_held state_vars) false
        (ops_since { boot 0 with client_state := .CONNECTED } s') = some false :=
  (writes_under_lock id .LWM2M_RD_CLIENT_EVENT_NONE .LTE_LC_NW_REG_NOT_REGISTERED
    ⟨0, -1, 0, [], false, 60, 0, 0⟩ { boot 0 with client_state := .CONNECTED }
    (fun hne => by simp at hne)).2.2.2

/-- Claim C18, what fails: the driver pass in `CONNECTED` with the link up releases the lock
and then reads and clears `update_session_lifetime`; the pass in `NETWORK_ERROR` releases
the lock and then reads and clears `reconnect`. Followed through either pass, the check
"every access of the four variables under the lock" fails. -/
theorem lock_guards_all_counterexample :
    (∃ s', main_loop_pass ⟨0, 0, 0, [], false, 60, 0, 0⟩
        { boot 0 with client_state := .CONNECTED, modem_connected_to_network := true }
          = some s' ∧
      lock_scan (accesses_held all_vars) false
        (ops_since { boot 0 with client_state := .CONNECTED,
                                 modem_connected_to_network := true } s') = none) ∧
    (∃ s', main_loop_pass ⟨0, 0, 0, [0], false, 60, 0, 0⟩
        { boot 0 with client_state := .NETWORK_ERROR, reconnect := true } = some s' ∧
      lock_scan (accesses_held all_vars) false
        (ops_since { boot 0 with client_state := .NETWORK_ERROR, reconnect := true } s')
          = none) :=
  ⟨⟨_, rfl, by decide⟩, ⟨_, rfl, by decide⟩⟩

/-- Claim C18, amended. The dispatcher and the link-monitor handler access all four shared
variables only while the lock is held. `suspend_lwm2m_engine` and the driver pass read and
write `client_state` and `modem_connected_to_network` only while the lock is held, and read
and write `update_session_lifetime` and `reconnect` only after they have released it (so does
`rd_client_update_lifetime`, which runs with the lock free). Nowhere is the lock taken while
it is held. -/
theorem lock_guards_state (manage : lwm2m_rd_client_event → lwm2m_rd_client_event)
    (client_event : lwm2m_rd_client_event) (nw_reg_status : lte_lc_nw_reg_status)
    (x : Ext) (s : Sys)
    (hconn : s.client_state = .NETWORK_ERROR → s.reconnect = true →
      ∃ r ∈ x.lte_lc_connect, 0 ≤ r) :
    lock_scan (guarded all_vars) false
        (ops_since s (rd_client_event manage client_event s)) = some false ∧
    lock_scan (guarded all_vars) false
        (ops_since s (lwm2m_lte_reg_handler_notify nw_reg_status s)) = some false ∧
    (lock_scan (guarded state_vars) true (ops_since s (suspend_lwm2m_engine x s))
        = some false ∧
      lock_scan (accesses_free flag_vars) true (ops_since s (suspend_lwm2m_engine x s))
        = some false) ∧
    lock_scan (accesses_free flag_vars) false (ops_since s (rd_client_update_lifetime x s))
        = some false ∧
    (∃ s', main_loop_pass x s = some s' ∧
      lock_scan (guarded state_vars) false (ops_since s s') = some false ∧
      lock_scan (accesses_free flag_vars) false (ops_since s s') = some false) := by
  refine ⟨?_, ?_, ⟨?_, ?_⟩, ?_, ?_⟩
  · exact (dispatcher_paths_checked _ (rd_client_event_path manage client_event s).1).2.2.2
  · exact (notify_paths_checked _ (lwm2m_lte_reg_handler_notify_path nw_reg_status s).1).2.2.2
  · exact (suspend_paths_checked _ (suspend_lwm2m_engine_path x s).1).2.2.1
  · exact (suspend_paths_checked _ (suspend_lwm2m_engine_path x s).1).2.2.2
  · obtain ⟨cs, rc, mc, usl, sem, lm, sl, tr⟩ := s
    simp only [rd_client_update_lifetime, set_update_session_lifetime, emit, ops_since]
    split_ifs <;> simp [lock_scan, lock_after, accesses_free, flag_vars]
  · obtain ⟨s', hs'⟩ := main_loop_pass_returns x s hconn
    obtain ⟨tail, ⟨head, hhead, htr⟩, htail, _⟩ := main_loop_pass_path x s s' hs'
    obtain ⟨_, _, _, h4, h5⟩ := pass_paths_checked _ head hhead
    refine ⟨s', hs', ?_⟩
    rw [ops_since_eq s s' _ htr]
    exact ⟨
      lock_scan_pass _ head tail false h4
        (fun o ho => ⟨((reconnect_ops_neutral false o (htail o ho)).2.2 state_vars).2.1,
          (reconnect_ops_neutral false o (htail o ho)).1⟩),
      lock_scan_pass _ head tail false h5
        (fun o ho => ⟨((reconnect_ops_neutral false o (htail o ho)).2.2 flag_vars).2.2,
          (reconnect_ops_neutral false o (htail o ho)).1⟩)⟩

/-- Witness for C18 as amended: the driver pass in `CONNECTED` with the link up. -/
theorem lock_guards_state_witness :
    ∃ s', main_loop_pass ⟨0, 0, 0, [], false, 60, 0, 0⟩
        { boot 0 with client_state := .CONNECTED, modem_connected_to_network := true }
          = some s' ∧
      lock_scan (guarded state_vars) false
        (ops_since { boot 0 with client_state := .CONNECTED,
                                 modem_connected_to_network := true } s') = some false ∧
      lock_scan (accesses_free flag_vars) false
        (ops_since { boot 0 with client_state := .CONNECTED,
                                 modem_connected_to_network := true } s') = some false :=
  (lock_guards_state id .LWM2M_RD_CLIENT_EVENT_NONE .LTE_LC_NW_REG_NOT_REGISTERED
    ⟨0, 0, 0, [], false, 60, 0, 0⟩
    { boot 0 with client_state := .CONNECTED, modem_connected_to_network := true }
    (fun hne => by simp at hne)).2.2.2.2
/-! ## The one-shot lifetime resync -/

/-- A callback other than a bootstrap-registration-complete event does not raise the resync
budget. -/
theorem deliver_resync (c : Callback) (s : Sys)
    (h : not_bootstrap_complete (.callback c)) :
    resync_budget (deliver c s) = resync_budget s := by
  cases c with
  | event manage client_event =>
    have hm : manage client_event ≠ .LWM2M_RD_CLIENT_EVENT_BOOTSTRAP_REG_COMPLETE := h
    obtain ⟨hp, htr, _⟩ := rd_client_event_path manage client_event s
    have hc := calls_eq .lwm2m_get_u32 s _ _ htr
    have h0 : ∀ p ∈ dispatcher_paths, p.count .lwm2m_get_u32 = 0 := by decide
    have husl : (rd_client_event manage client_event s).update_session_lifetime
        = s.update_session_lifetime := by
      by_cases hd : s.client_state = .LTE_OFFLINE ∧
          client_event ≠ .LWM2M_RD_CLIENT_EVENT_ENGINE_SUSPENDED
      · rw [rd_client_event_dropped manage client_event s hd]
      · rw [(rd_client_event_effect manage client_event s hd).2.1]
        simp [hm]
    simp only [resync_budget, deliver, hc, h0 _ hp, husl, Nat.add_zero]
  | notify nw_reg_status =>
    obtain ⟨hp, htr, husl, _⟩ := lwm2m_lte_reg_handler_notify_path nw_reg_status s
    have hc := calls_eq .lwm2m_get_u32 s _ _ htr
    have h0 : ∀ p ∈ notify_paths, p.count .lwm2m_get_u32 = 0 := by decide
    simp only [resync_budget, deliver, hc, h0 _ hp, husl, Nat.add_zero]

/-- A driver pass that returns does not raise the resync budget: it reads the lifetime only
when `update_session_lifetime` is set, and clears the flag when it does. -/
theorem main_loop_pass_resync (x : Ext) (s s' : Sys) (h : main_loop_pass x s = some s') :
    resync_budget s' ≤ resync_budget s := by
  obtain ⟨cs, rc, mc, usl, sem, lm, sl, tr⟩ := s
  cases cs
  case NETWORK_ERROR =>
    cases rc
    · simp [main_loop_pass, state_trigger_and_unlock, k_mutex_lock, k_mutex_unlock,
        k_sem_give, load, emit, set_client_state] at h
      subst h
      simp [resync_budget, calls]
    · simp [main_loop_pass, state_trigger_and_unlock, k_mutex_lock, k_mutex_unlock,
        k_sem_give, load, emit, set_client_state, set_reconnect] at h
      obtain ⟨ops, hops, hmem⟩ := modem_connect_ops _ _ _ _ h
      subst hops
      have h0 : ops.count .lwm2m_get_u32 = 0 :=
        List.count_eq_zero.2 (fun hin => by have := hmem _ hin; simp [reconnect_ops] at this)
      simp [resync_budget, calls, h0]
  case START =>
    by_cases h1 : x.lwm2m_rd_client_start = 0 <;>
      simp [main_loop_pass, state_trigger_and_unlock, k_mutex_lock, k_mutex_unlock,
        k_sem_give, load, emit, set_client_state, h1] at h <;>
      subst h <;> simp [resync_budget, calls]
  case CONNECTED =>
    cases mc
    · by_cases h2 : x.lwm2m_engine_pause = 0 <;>
        simp [main_loop_pass, suspend_lwm2m_engine, state_trigger_and_unlock, k_mutex_lock,
          k_mutex_unlock, k_sem_give, load, emit, set_client_state, set_reconnect, h2] at h <;>
        subst h <;> simp [resync_budget, calls]
    · cases usl
      · simp [main_loop_pass, k_mutex_lock, k_mutex_unlock, load, emit] at h
        subst h
        simp [resync_budget, calls]
      · simp [main_loop_pass, rd_client_update_lifetime, k_mutex_lock, k_mutex_unlock, load,
          emit, set_update_session_lifetime] at h
        subst h
        simp only [resync_budget, calls]
        split_ifs <;> simp_all
  case LTE_OFFLINE =>
    cases mc <;>
      simp [main_loop_pass, state_trigger_and_unlock, k_mutex_lock, k_mutex_unlock,
        k_sem_give, load, emit, set_client_state] at h <;>
      subst h <;> simp [resync_budget, calls]
  all_goals
    simp [main_loop_pass, state_set_and_unlock, k_mutex_lock, k_mutex_unlock, load, emit,
      set_client_state] at h
    subst h
    simp [resync_budget, calls]

/-- Over a run without bootstrap-registration-complete events the resync budget does not
grow. -/
theorem run_resync (steps : List Step) (s s' : Sys)
    (hsteps : ∀ a ∈ steps, not_bootstrap_complete a) (h : run steps s = some s') :
    resync_budget s' ≤ resync_budget s := by
  induction steps generalizing s with
  | nil =>
    simp only [run, Option.some.injEq] at h
    rw [h]
  | cons a rest ih =>
    simp only [run] at h
    cases hstep : step a s with
    | none => simp [hstep] at h
    | some s1 =>
      rw [hstep] at h
      have hrest := ih s1 (fun a' ha' => hsteps a' (List.mem_cons_of_mem _ ha')) h
      have ha := hsteps a (List.mem_cons_self _ _)
      refine le_trans hrest ?_
      cases a with
      | callback c =>
        simp only [step, Option.some.injEq] at hstep
        rw [← hstep, deliver_resync c s ha]
      | pass x => exact main_loop_pass_resync x s s1 hstep
      | wait =>
        simp only [step] at hstep
        unfold k_sem_take at hstep
        split at hstep
        · simp only [Option.some.injEq] at hstep
          subst hstep
          simp [resync_budget, calls, emit]
        · simp at hstep

/-- A run only appends to the trace. -/
theorem run_extends (steps : List Step) (s s' : Sys) (h : run steps s = some s') :
    ∃ ops, s'.trace = s.trace ++ ops := by
  induction steps generalizing s with
  | nil =>
    simp only [run, Option.some.injEq] at h
    exact ⟨[], by simp [h]⟩
  | cons a rest ih =>
    simp only [run] at h
    cases hstep : step a s with
    | none => simp [hstep] at h
    | some s1 =>
      rw [hstep] at h
      obtain ⟨ops, hops⟩ := ih s1 h
      have h1 : ∃ ops1, s1.trace = s.trace ++ ops1 := by
        cases a with
        | callback c =>
          simp only [step, Option.some.injEq] at hstep
          subst hstep
          cases c with
          | event manage client_event =>
            exact ⟨_, (rd_client_event_path manage client_event s).2.1⟩
          | notify nw_reg_status =>
            exact ⟨_, (lwm2m_lte_reg_handler_notify_path nw_reg_status s).2.1⟩
        | pass x =>
          obtain ⟨tail, ⟨head, _, htr⟩, _⟩ := main_loop_pass_path x s s1 hstep
          exact ⟨_, htr⟩
        | wait =>
          simp only [step] at hstep
          unfold k_sem_take at hstep
          split at hstep
          · simp only [Option.some.injEq] at hstep
            subst hstep
            exact ⟨[.k_sem_take], rfl⟩
          · simp at hstep
      obtain ⟨ops1, hops1⟩ := h1
      exact ⟨ops1 ++ ops, by rw [hops, hops1, List.append_assoc]⟩

/-- Claim C11, what fails: main.c:417-428 initialises `current_lifetime` to 0 and looks at the
result of neither `lwm2m_get_u32` nor `lwm2m_set_u32`. When the read fails with the held
lifetime equal to the configured one (60), a write is issued all the same; when the write
fails, the held lifetime (30) still differs from the configured one (60) after the pass and
the flag is cleared. -/
theorem lifetime_resync_counterexample :
    (∃ s', main_loop_pass ⟨0, 0, 0, [], false, 60, -2, 0⟩
        { boot 60 with client_state := .CONNECTED, modem_connected_to_network := true }
          = some s' ∧
      ({ boot 60 with client_state := .CONNECTED,
                      modem_connected_to_network := true } : Sys).server_lifetime = 60 ∧
      calls (.lwm2m_set_u32 60) s' = 1) ∧
    (∃ s', main_loop_pass ⟨0, 0, 0, [], false, 60, 0, -2⟩
        { boot 30 with client_state := .CONNECTED, modem_connected_to_network := true }
          = some s' ∧
      s'.server_lifetime = 30 ∧ s'.update_session_lifetime = false) :=
  ⟨⟨_, rfl, rfl, by decide⟩, ⟨_, rfl, rfl, rfl⟩⟩

/-- Claim C11, amended. A driver pass entered in `CONNECTED` with the link up returns and
leaves the state `CONNECTED` and `update_session_lifetime` false. With the flag set on entry
it reads the lifetime once; provided that read succeeds, it writes the configured lifetime
exactly when the two differ, and provided the write (when issued) succeeds as well, the
server-held lifetime afterwards equals the configured one. With the flag clear it neither
reads nor writes the lifetime. Over any run of callbacks, passes and waits without a
bootstrap-registration-complete event the lifetime is read at most once, and not at all when
the flag was clear at the start. Both lifetimes are `uint32_t` values. -/
theorem lifetime_resync (x : Ext) (s : Sys)
    (hs : s.client_state = .CONNECTED) (hlink : s.modem_connected_to_network = true)
    (hsl : s.server_lifetime < 2 ^ 32)
    (hcfg : x.CONFIG_LWM2M_ENGINE_DEFAULT_LIFETIME < 2 ^ 32) :
    (∃ s', main_loop_pass x s = some s' ∧
      s'.client_state = .CONNECTED ∧
      s'.update_session_lifetime = false ∧
      (s.update_session_lifetime = true →
        calls .lwm2m_get_u32 s' = calls .lwm2m_get_u32 s + 1 ∧
        (x.lwm2m_get_u32 = 0 →
          s'.trace = s.trace ++
            ([.k_mutex_lock, .read .client_state, .read .modem_connected_to_network,
              .k_mutex_unlock, .read .update_session_lifetime, .lwm2m_get_u32] ++
             (if s.server_lifetime ≠ x.CONFIG_LWM2M_ENGINE_DEFAULT_LIFETIME
              then [.lwm2m_set_u32 x.CONFIG_LWM2M_ENGINE_DEFAULT_LIFETIME] else []) ++
             [.write .update_session_lifetime, .date_time_update_async]) ∧
          (s.server_lifetime = x.CONFIG_LWM2M_ENGINE_DEFAULT_LIFETIME ∨
              x.lwm2m_set_u32 = 0 →
            s'.server_lifetime = x.CONFIG_LWM2M_ENGINE_DEFAULT_LIFETIME))) ∧
      (s.update_session_lifetime = false →
        s'.server_lifetime = s.server_lifetime ∧
        s'.trace = s.trace ++
          [.k_mutex_lock, .read .client_state, .read .modem_connected_to_network,
           .k_mutex_unlock, .read .update_session_lifetime, .date_time_update_async])) ∧
    (∀ (steps : List Step) (s' : Sys),
      (∀ a ∈ steps, not_bootstrap_complete a) → run steps s = some s' →
        calls .lwm2m_get_u32 s' ≤ calls .lwm2m_get_u32 s + 1 ∧
        (s.update_session_lifetime = false →
          calls .lwm2m_get_u32 s' = calls .lwm2m_get_u32 s)) := by
  refine ⟨?_, ?_⟩
  · obtain ⟨cs, rc, mc, usl, sem, lm, sl, tr⟩ := s
    simp only at hs hlink hsl hcfg
    subst hs hlink
    have e1 : sl % 4294967296 = sl := Nat.mod_eq_of_lt hsl
    have e2 : x.CONFIG_LWM2M_ENGINE_DEFAULT_LIFETIME % 4294967296
        = x.CONFIG_LWM2M_ENGINE_DEFAULT_LIFETIME := Nat.mod_eq_of_lt hcfg
    cases usl
    · simp [main_loop_pass, k_mutex_lock, k_mutex_unlock, load, emit]
    · by_cases hg : x.lwm2m_get_u32 = 0
      · by_cases hw : x.lwm2m_set_u32 = 0 <;>
          by_cases h3 : sl = x.CONFIG_LWM2M_ENGINE_DEFAULT_LIFETIME <;>
          simp [main_loop_pass, rd_client_update_lifetime, k_mutex_lock, k_mutex_unlock, load,
            emit, set_update_session_lifetime, calls, e1, e2, h3, hg, hw]
      · simp only [main_loop_pass, rd_client_update_lifetime, k_mutex_lock, k_mutex_unlock,
          load, emit, set_update_session_lifetime, calls, hg]
        split_ifs <;> simp_all
  · intro steps s' hsteps hrun
    have hb := run_resync steps s s' hsteps hrun
    unfold resync_budget at hb
    refine ⟨?_, ?_⟩
    · split at hb <;> split at hb <;> omega
    · intro hclear
      have hmono : calls .lwm2m_get_u32 s ≤ calls .lwm2m_get_u32 s' := by
        obtain ⟨ops, hops⟩ := run_extends steps s s' hrun
        rw [calls_eq _ s s' ops hops]
        omega
      simp only [hclear] at hb
      split at hb <;> simp at hb <;> omega

/-- Witness for C11 as amended: `CONNECTED` with the link up, the flag set, 30 held by the
server, 60 configured, and both the read and the write succeeding. -/
theorem lifetime_resync_witness :
    ∃ s', main_loop_pass ⟨0, 0, 0, [], false, 60, 0, 0⟩
        { boot 30 with client_state := .CONNECTED, modem_connected_to_network := true }
          = some s' ∧
      s'.client_state = .CONNECTED ∧ s'.update_session_lifetime = false ∧
      s'.server_lifetime = 60 ∧ calls (.lwm2m_set_u32 60) s' = 1 :=
  have ⟨s', h⟩ := (lifetime_resync ⟨0, 0, 0, [], false, 60, 0, 0⟩
    { boot 30 with client_state := .CONNECTED, modem_connected_to_network := true }
    rfl rfl (by norm_num [boot]) (by norm_num)).1
  ⟨s', h.1, h.2.1, h.2.2.1, ((h.2.2.2.1 rfl).2 rfl).2 (Or.inr rfl),
    by rw [calls, ((h.2.2.2.1 rfl).2 rfl).1]; decide⟩

/-! ## Restart: the passes in `START` and in `NETWORK_ERROR` -/

/-- The pass entered in `START`, in full. -/
theorem main_loop_pass_start_eq (x : Ext) (s : Sys) (hs : s.client_state = .START) :
    main_loop_pass x s = some { s with
      client_state := if x.lwm2m_rd_client_start = 0 then .CONNECTING else .NETWORK_ERROR
      state_mutex := (k_sem_give s).state_mutex
      trace := s.trace ++ [.k_mutex_lock, .read .client_state, .lwm2m_rd_client_start,
        .read .client_state, .write .client_state, .k_sem_give, .k_mutex_unlock] } := by
  obtain ⟨cs, rc, mc, usl, sem, lm, sl, tr⟩ := s
  simp only at hs
  subst hs
  by_cases h1 : x.lwm2m_rd_client_start = 0 <;>
    simp [main_loop_pass, state_trigger_and_unlock, k_mutex_lock, k_mutex_unlock, k_sem_give,
      load, emit, set_client_state, h1]

/-- The pass entered in `NETWORK_ERROR`, in full: it returns (with `reconnect` set: provided
one connect attempt succeeds), and the link operations come after the stop exactly when
`reconnect` was set. -/
theorem main_loop_pass_network_error_eq (x : Ext) (s : Sys)
    (hs : s.client_state = .NETWORK_ERROR)
    (hconn : s.reconnect = true → ∃ r ∈ x.lte_lc_connect, 0 ≤ r) :
    ∃ ops, (∀ o ∈ ops, o ∈ reconnect_ops) ∧
      main_loop_pass x s = some { s with
        client_state := .START
        reconnect := false
        state_mutex := (k_sem_give s).state_mutex
        trace := s.trace ++ ([.k_mutex_lock, .read .client_state, .read .client_state,
          .write .client_state, .k_sem_give, .k_mutex_unlock, .lwm2m_rd_client_stop false,
          .read .reconnect] ++
          (if s.reconnect then [.write .reconnect, .lte_lc_offline, .lte_lc_connect] ++ ops
           else [])) } := by
  obtain ⟨cs, rc, mc, usl, sem, lm, sl, tr⟩ := s
  simp only at hs hconn
  subst hs
  cases rc
  · refine ⟨[], by simp, ?_⟩
    simp [main_loop_pass, state_trigger_and_unlock, k_mutex_lock, k_mutex_unlock, k_sem_give,
      load, emit, set_client_state]
  · obtain ⟨ops, heq, hmem⟩ := modem_connect_returns
      x.CONFIG_LWM2M_CLIENT_UTILS_LTE_CONNEVAL x.lte_lc_connect (hconn rfl)
      (emit .lte_lc_offline (set_reconnect false (load .reconnect
        (emit (.lwm2m_rd_client_stop false) (state_trigger_and_unlock .START
          (load .client_state
            (k_mutex_lock ⟨.NETWORK_ERROR, true, mc, usl, sem, lm, sl, tr⟩)))))))
    refine ⟨ops, hmem, ?_⟩
    simpa [main_loop_pass, state_trigger_and_unlock, k_mutex_lock, k_mutex_unlock,
      k_sem_give, load, emit, set_client_state, set_reconnect] using heq

/-! ## Boot with an empty identifier -/

/-- Claim C21. With the empty string as `CONFIG_NCE_ICCID`, `main` returns 0 before the
driver loop, having called `nrf_modem_lib_init` and nothing else: the event manager is not
initialised, the link-monitor handler is not registered, the link is not connected and engine
start is not called. -/
theorem empty_identity_aborts (b : BootExt) (s : Sys) (h : b.CONFIG_NCE_ICCID = "") :
    main_boot b s = .returned 0 { s with trace := s.trace ++ [.nrf_modem_lib_init] } ∧
    (∀ s', main_boot b s ≠ .driver_loop s') ∧
    calls .app_event_manager_init { s with trace := s.trace ++ [.nrf_modem_lib_init] }
      = calls .app_event_manager_init s ∧
    calls .lte_lc_register_handler { s with trace := s.trace ++ [.nrf_modem_lib_init] }
      = calls .lte_lc_register_handler s ∧
    calls .lte_lc_connect { s with trace := s.trace ++ [.nrf_modem_lib_init] }
      = calls .lte_lc_connect s ∧
    calls .lwm2m_rd_client_start { s with trace := s.trace ++ [.nrf_modem_lib_init] }
      = calls .lwm2m_rd_client_start s := by
  have hb : main_boot b s
      = .returned 0 { s with trace := s.trace ++ [.nrf_modem_lib_init] } := by
    by_cases hinit : b.nrf_modem_lib_init < 0 <;> simp [main_boot, h, hinit, emit]
  refine ⟨hb, ?_, ?_, ?_, ?_, ?_⟩
  · intro s' hs'
    rw [hb] at hs'
    cases hs'
  all_goals simp [calls]

/-- Witness for C21: the boot with the empty identifier, from the static initial values. -/
theorem empty_identity_aborts_witness :
    main_boot empty_identity_boot (boot 0)
      = .returned 0 { boot 0 with trace := [.nrf_modem_lib_init] } :=
  (empty_identity_aborts empty_identity_boot (boot 0) rfl).1

/-! ## The flag of the engine stop -/

/-- Claim C22, what fails: the pass in `NETWORK_ERROR` calls `lwm2m_rd_client_stop` with
`false` (main.c:900), and never with `true`. -/
theorem stop_flag_counterexample :
    ∃ s', main_loop_pass ⟨0, 0, 0, [], false, 60, 0, 0⟩
        { boot 0 with client_state := .NETWORK_ERROR } = some s' ∧
      calls (.lwm2m_rd_client_stop true) s' = 0 ∧
      calls (.lwm2m_rd_client_stop false) s' = 1 :=
  ⟨_, rfl, by decide, by decide⟩

/-- Claim C22, amended. The pass in `NETWORK_ERROR` calls `lwm2m_rd_client_stop` once, with
the flag `false`, and no call with `true` is made; main.c keeps no inhibit of its own: an
event delivered after that pass is dispatched by the table as usual (from `START`, whatever
the hook leaves in `client_event`). -/
theorem stop_flag (x : Ext) (s : Sys) (hs : s.client_state = .NETWORK_ERROR)
    (hconn : s.reconnect = true → ∃ r ∈ x.lte_lc_connect, 0 ≤ r) :
    ∃ s', main_loop_pass x s = some s' ∧
      calls (.lwm2m_rd_client_stop false) s' = calls (.lwm2m_rd_client_stop false) s + 1 ∧
      calls (.lwm2m_rd_client_stop true) s' = calls (.lwm2m_rd_client_stop true) s ∧
      ∀ (manage : lwm2m_rd_client_event → lwm2m_rd_client_event)
        (client_event : lwm2m_rd_client_event),
        (rd_client_event manage client_event s').client_state
          = spec_transition .START (manage client_event) := by
  obtain ⟨ops, hmem, heq⟩ := main_loop_pass_network_error_eq x s hs hconn
  have h0 : ∀ b, ops.count (.lwm2m_rd_client_stop b) = 0 := fun b =>
    List.count_eq_zero.2 (fun hin => by have := hmem _ hin; simp [reconnect_ops] at this)
  refine ⟨_, heq, ?_, ?_, ?_⟩
  · cases hrc : s.reconnect <;> simp [calls, h0]
  · cases hrc : s.reconnect <;> simp [calls, h0]
  · intro manage client_event
    have hnd : ¬ (client_state.START = .LTE_OFFLINE ∧
        client_event ≠ .LWM2M_RD_CLIENT_EVENT_ENGINE_SUSPENDED) := by simp
    exact (rd_client_event_effect manage client_event _ hnd).1

/-- Witness for C22 as amended: `NETWORK_ERROR` with `reconnect` set and the second connect
attempt succeeding. -/
theorem stop_flag_witness :
    ∃ s', main_loop_pass ⟨0, 0, 0, [-1, 0], false, 60, 0, 0⟩
        { boot 0 with client_state := .NETWORK_ERROR, reconnect := true } = some s' ∧
      calls (.lwm2m_rd_client_stop false) s' = 1 ∧
      calls (.lwm2m_rd_client_stop true) s' = 0 :=
  have ⟨s', h⟩ := stop_flag ⟨0, 0, 0, [-1, 0], false, 60, 0, 0⟩
    { boot 0 with client_state := .NETWORK_ERROR, reconnect := true } rfl
    (fun _ => ⟨0, by decide, by decide⟩)
  ⟨s', h.1, h.2.1, h.2.2.1⟩

/-! ## The missed wake-up -/

/-- A notification received in `START` leaves the state, the semaphore, the flags and the
numbers of posts and of engine starts as they were. -/
theorem notify_in_start (nw_reg_status : lte_lc_nw_reg_status) (s : Sys)
    (hs : s.client_state = .START) :
    (lwm2m_lte_reg_handler_notify nw_reg_status s).client_state = .START ∧
    (lwm2m_lte_reg_handler_notify nw_reg_status s).state_mutex = s.state_mutex ∧
    calls .k_sem_give (lwm2m_lte_reg_handler_notify nw_reg_status s) = calls .k_sem_give s ∧
    calls .lwm2m_rd_client_start (lwm2m_lte_reg_handler_notify nw_reg_status s)
      = calls .lwm2m_rd_client_start s := by
  obtain ⟨cs, rc, mc, usl, sem, lm, sl, tr⟩ := s
  simp only at hs
  subst hs
  by_cases h : lte_connected nw_reg_status = mc <;>
    simp [lwm2m_lte_reg_handler_notify, h, k_mutex_lock, k_mutex_unlock, load, emit,
      set_modem_connected_to_network, calls]

/-- Claim C23. From boot with the link up the driver reaches its wait in `CONNECTED` with
nothing pending (the wait blocks); a disconnect or a deregister-failure event then leaves
`client_state = START` with the count still 0, so the wait still blocks. From every
configuration with `client_state = START` and count 0, every sequence of link-status
notifications leaves `client_state = START`, the count 0 and the wait blocked, posts nothing
and calls engine start not once. -/
theorem missed_wake_up :
    (∃ s, run ((run_then_event .LWM2M_RD_CLIENT_EVENT_DISCONNECT).take 6) (boot_link_up 0)
        = some s ∧ s.client_state = .CONNECTED ∧ k_sem_take s = none) ∧
    (∃ s, run (run_then_event .LWM2M_RD_CLIENT_EVENT_DISCONNECT) (boot_link_up 0) = some s ∧
      s.client_state = .START ∧ s.state_mutex.count = 0 ∧ k_sem_take s = none) ∧
    (∃ s, run (run_then_event .LWM2M_RD_CLIENT_EVENT_DEREGISTER_FAILURE) (boot_link_up 0)
        = some s ∧
      s.client_state = .START ∧ s.state_mutex.count = 0 ∧ k_sem_take s = none) ∧
    (∀ (s : Sys) (statuses : List lte_lc_nw_reg_status),
      s.client_state = .START → s.state_mutex.count = 0 →
        (deliver_all (statuses.map .notify) s).client_state = .START ∧
        (deliver_all (statuses.map .notify) s).state_mutex.count = 0 ∧
        k_sem_take (deliver_all (statuses.map .notify) s) = none ∧
        calls .k_sem_give (deliver_all (statuses.map .notify) s) = calls .k_sem_give s ∧
        calls .lwm2m_rd_client_start (deliver_all (statuses.map .notify) s)
          = calls .lwm2m_rd_client_start s) := by
  refine ⟨⟨_, rfl, rfl, rfl⟩, ⟨_, rfl, rfl, rfl, rfl⟩, ⟨_, rfl, rfl, rfl, rfl⟩, ?_⟩
  intro s statuses
  induction statuses generalizing s with
  | nil =>
    intro hs hc
    simp [deliver_all, hs, hc, k_sem_take]
  | cons st rest ih =>
    intro hs hc
    obtain ⟨h1, h2, h3, h4⟩ := notify_in_start st s hs
    have := ih (lwm2m_lte_reg_handler_notify st s) h1 (by rw [h2]; exact hc)
    simpa [deliver_all, deliver, h3, h4] using this

/-- Witness for C23: three notifications after the disconnect of the run above. -/
theorem missed_wake_up_witness :
    ∃ s, run (run_then_event .LWM2M_RD_CLIENT_EVENT_DISCONNECT) (boot_link_up 0) = some s ∧
      k_sem_take (deliver_all
        ([.LTE_LC_NW_REG_NOT_REGISTERED, .LTE_LC_NW_REG_SEARCHING,
          .LTE_LC_NW_REG_REGISTERED_HOME].map .notify) s) = none :=
  ⟨_, rfl, (missed_wake_up.2.2.2 _ [.LTE_LC_NW_REG_NOT_REGISTERED, .LTE_LC_NW_REG_SEARCHING,
    .LTE_LC_NW_REG_REGISTERED_HOME] rfl rfl).2.2.1⟩

/-! ## Restart -/

/-- The pass entered in `START` on a binary signal: what it leaves. -/
theorem main_loop_pass_start_props (x : Ext) (s : Sys) (hs : s.client_state = .START)
    (hb : binary_signal s) :
    ∃ s', main_loop_pass x s = some s' ∧
      s'.client_state
        = (if x.lwm2m_rd_client_start = 0 then .CONNECTING else .NETWORK_ERROR) ∧
      s'.state_mutex = { count := 1, limit := 1 } ∧
      calls .lwm2m_rd_client_start s' = calls .lwm2m_rd_client_start s + 1 := by
  refine ⟨_, main_loop_pass_start_eq x s hs, rfl, k_sem_give_binary s hb, ?_⟩
  simp [calls]

/-- The pass entered in `NETWORK_ERROR` on a binary signal: what it leaves. -/
theorem main_loop_pass_network_error_props (x : Ext) (s : Sys)
    (hs : s.client_state = .NETWORK_ERROR) (hb : binary_signal s)
    (hconn : s.reconnect = true → ∃ r ∈ x.lte_lc_connect, 0 ≤ r) :
    ∃ s', main_loop_pass x s = some s' ∧
      s'.client_state = .START ∧
      s'.reconnect = false ∧
      s'.state_mutex = { count := 1, limit := 1 } ∧
      calls (.lwm2m_rd_client_stop false) s' = calls (.lwm2m_rd_client_stop false) s + 1 ∧
      calls .lwm2m_rd_client_start s' = calls .lwm2m_rd_client_start s := by
  obtain ⟨ops, hmem, heq⟩ := main_loop_pass_network_error_eq x s hs hconn
  have h1 : ops.count (.lwm2m_rd_client_stop false) = 0 :=
    List.count_eq_zero.2 (fun hin => by have := hmem _ hin; simp [reconnect_ops] at this)
  have h2 : ops.count .lwm2m_rd_client_start = 0 :=
    List.count_eq_zero.2 (fun hin => by have := hmem _ hin; simp [reconnect_ops] at this)
  refine ⟨_, heq, rfl, rfl, k_sem_give_binary s hb, ?_, ?_⟩ <;>
    cases hrc : s.reconnect <;> simp [calls, h1, h2]

/-- The wait on a pending binary signal: it returns, lowers the count to 0, and leaves the
variables and every count of calls other than its own as they were. -/
theorem k_sem_take_props (s : Sys) (h : s.state_mutex = { count := 1, limit := 1 }) :
    ∃ s', k_sem_take s = some s' ∧
      s'.client_state = s.client_state ∧
      s'.reconnect = s.reconnect ∧
      s'.state_mutex = { count := 0, limit := 1 } ∧
      ∀ o, o ≠ .k_sem_take → calls o s' = calls o s := by
  obtain ⟨cs, rc, mc, usl, sem, lm, sl, tr⟩ := s
  simp only at h
  subst h
  refine ⟨emit .k_sem_take ⟨cs, rc, mc, usl, ⟨0, 1⟩, lm, sl, tr⟩, by simp [k_sem_take],
    rfl, rfl, rfl, ?_⟩
  intro o ho
  simp [calls, emit, List.count_cons, Ne.symm ho]

/-- Claim C24. A driver pass entered in `START` or in `NETWORK_ERROR` returns (in
`NETWORK_ERROR` with `reconnect` set: once a connect attempt of the reconnection policy
succeeds), leaves `client_state` different from what it was and the count of the wake signal
at 1, so the wait that follows returns at once. Hence from `NETWORK_ERROR` the pass, the wait
and the next pass all return: the first pass is the `NETWORK_ERROR` action (one engine stop,
state `START`), the second the `START` action (one engine start, then `CONNECTING` or
`NETWORK_ERROR`). -/
theorem restart_never_stalls (x1 x2 : Ext) (s : Sys) (hb : binary_signal s)
    (hs : s.client_state = .START ∨ s.client_state = .NETWORK_ERROR)
    (hconn : s.client_state = .NETWORK_ERROR → s.reconnect = true →
      ∃ r ∈ x1.lte_lc_connect, 0 ≤ r) :
    (∃ s', main_loop_pass x1 s = some s' ∧
      s'.client_state ≠ s.client_state ∧
      s'.state_mutex.count = 1 ∧
      ∃ s'', k_sem_take s' = some s'' ∧ s''.client_state = s'.client_state ∧
        s''.state_mutex.count = 0) ∧
    (s.client_state = .NETWORK_ERROR →
      ∃ s1 s2 s3, main_loop_pass x1 s = some s1 ∧ k_sem_take s1 = some s2 ∧
        main_loop_pass x2 s2 = some s3 ∧
        run [.pass x1, .wait, .pass x2] s = some s3 ∧
        s1.client_state = .START ∧
        calls (.lwm2m_rd_client_stop false) s1 = calls (.lwm2m_rd_client_stop false) s + 1 ∧
        calls .lwm2m_rd_client_start s1 = calls .lwm2m_rd_client_start s ∧
        calls .lwm2m_rd_client_start s3 = calls .lwm2m_rd_client_start s + 1 ∧
        s3.client_state
          = (if x2.lwm2m_rd_client_start = 0 then .CONNECTING else .NETWORK_ERROR) ∧
        s3.state_mutex.count = 1) := by
  rcases hs with hs | hs
  · obtain ⟨s', hp, hcs, hsm, _⟩ := main_loop_pass_start_props x1 s hs hb
    obtain ⟨s'', ht, htc, _, hts, _⟩ := k_sem_take_props s' hsm
    refine ⟨⟨s', hp, ?_, by rw [hsm], s'', ht, htc, by rw [hts]⟩, ?_⟩
    · rw [hcs, hs]
      split <;> simp
    · intro hne
      rw [hs] at hne
      cases hne
  · obtain ⟨s1, hp1, hcs1, _, hsm1, hstop1, hstart1⟩ :=
      main_loop_pass_network_error_props x1 s hs hb (hconn hs)
    obtain ⟨s2, ht, htc, _, hts, hcalls⟩ := k_sem_take_props s1 hsm1
    have hb2 : binary_signal s2 := by simp [binary_signal, hts]
    obtain ⟨s3, hp3, hcs3, hsm3, hstart3⟩ :=
      main_loop_pass_start_props x2 s2 (by rw [htc, hcs1]) hb2
    refine ⟨⟨s1, hp1, ?_, by rw [hsm1], s2, ht, htc, by rw [hts]⟩, ?_⟩
    · rw [hcs1, hs]
      simp
    · intro _
      refine ⟨s1, s2, s3, hp1, ht, hp3, ?_, hcs1, hstop1, hstart1, ?_, hcs3, by rw [hsm3]⟩
      · simp [run, step, hp1, ht, hp3]
      · rw [hstart3, hcalls _ (by simp), hstart1]

/-- Witness for C24: `NETWORK_ERROR` with `reconnect` set, one failed connect attempt, then
engine start succeeding. -/
theorem restart_never_stalls_witness :
    ∃ s3, run [.pass ⟨0, 0, 0, [-1, 0], false, 60, 0, 0⟩, .wait, .pass ⟨0, 0, 0, [], false, 60, 0, 0⟩]
        { boot 0 with client_state := .NETWORK_ERROR, reconnect := true } = some s3 ∧
      s3.client_state = .CONNECTING ∧ s3.state_mutex.count = 1 :=
  have ⟨_, _, s3, h⟩ := (restart_never_stalls ⟨0, 0, 0, [-1, 0], false, 60, 0, 0⟩
    ⟨0, 0, 0, [], false, 60, 0, 0⟩
    { boot 0 with client_state := .NETWORK_ERROR, reconnect := true } (by decide)
    (Or.inr rfl) (fun _ _ => ⟨0, by decide, by decide⟩)).2 rfl
  ⟨s3, h.2.2.2.1, h.2.2.2.2.2.2.2.2.1, h.2.2.2.2.2.2.2.2.2⟩

/-! ## Who clears `reconnect` -/

/-- A driver pass entered outside `NETWORK_ERROR` with `reconnect` set returns with
`reconnect` set. -/
theorem main_loop_pass_keeps_reconnect (x : Ext) (s : Sys)
    (hs : s.client_state ≠ .NETWORK_ERROR) (hrc : s.reconnect = true) :
    ∃ s', main_loop_pass x s = some s' ∧ s'.reconnect = true := by
  obtain ⟨cs, rc, mc, usl, sem, lm, sl, tr⟩ := s
  simp only at hs hrc
  subst hrc
  cases cs
  case NETWORK_ERROR => exact absurd rfl hs
  case START =>
    by_cases h1 : x.lwm2m_rd_client_start = 0 <;>
      simp [main_loop_pass, state_trigger_and_unlock, k_mutex_lock, k_mutex_unlock,
        k_sem_give, load, emit, set_client_state, h1]
  case CONNECTED =>
    cases mc
    · by_cases h2 : x.lwm2m_engine_pause = 0 <;>
        simp [main_loop_pass, suspend_lwm2m_engine, state_trigger_and_unlock, k_mutex_lock,
          k_mutex_unlock, k_sem_give, load, emit, set_client_state, set_reconnect, h2]
    · cases usl
      · simp [main_loop_pass, k_mutex_lock, k_mutex_unlock, load, emit]
      · simp [main_loop_pass, rd_client_update_lifetime, k_mutex_lock, k_mutex_unlock, load,
          emit, set_update_session_lifetime]
        split_ifs <;> simp
  case LTE_OFFLINE =>
    cases mc <;>
      simp [main_loop_pass, state_trigger_and_unlock, k_mutex_lock, k_mutex_unlock,
        k_sem_give, load, emit, set_client_state]
  all_goals
    simp [main_loop_pass, state_set_and_unlock, k_mutex_lock, k_mutex_unlock, load, emit,
      set_client_state]

/-- Claim C25. Once `reconnect` is set, no dispatcher event, no link-status notification and
no driver pass entered in `START`, `BOOTSTRAP`, `CONNECTING`, `CONNECTED` or `LTE_OFFLINE`
clears it. In particular, outside `LTE_OFFLINE`, a network-error event followed by a
registration-complete event (the hook leaving both alone) gives `CONNECTED` with `reconnect`
set; a bootstrap-registration failure then gives `NETWORK_ERROR` with `reconnect` still set,
and the pass that follows stops the engine, clears `reconnect` and runs `lte_lc_offline` and
`modem_connect`. -/
theorem reconnect_cleared_only_by_network_error :
    (∀ (manage : lwm2m_rd_client_event → lwm2m_rd_client_event)
      (client_event : lwm2m_rd_client_event) (s : Sys),
      s.reconnect = true → (rd_client_event manage client_event s).reconnect = true) ∧
    (∀ (nw_reg_status : lte_lc_nw_reg_status) (s : Sys),
      s.reconnect = true → (lwm2m_lte_reg_handler_notify nw_reg_status s).reconnect = true) ∧
    (∀ (x : Ext) (s : Sys), s.client_state ≠ .NETWORK_ERROR → s.reconnect = true →
      ∃ s', main_loop_pass x s = some s' ∧ s'.reconnect = true) ∧
    (∀ (manage1 manage2 manage3 : lwm2m_rd_client_event → lwm2m_rd_client_event)
      (x : Ext) (s : Sys),
      s.client_state ≠ .LTE_OFFLINE →
      manage1 .LWM2M_RD_CLIENT_EVENT_NETWORK_ERROR = .LWM2M_RD_CLIENT_EVENT_NETWORK_ERROR →
      manage2 .LWM2M_RD_CLIENT_EVENT_REGISTRATION_COMPLETE
        = .LWM2M_RD_CLIENT_EVENT_REGISTRATION_COMPLETE →
      manage3 .LWM2M_RD_CLIENT_EVENT_BOOTSTRAP_REG_FAILURE
        = .LWM2M_RD_CLIENT_EVENT_BOOTSTRAP_REG_FAILURE →
      (∃ r ∈ x.lte_lc_connect, 0 ≤ r) →
      (rd_client_event manage2 .LWM2M_RD_CLIENT_EVENT_REGISTRATION_COMPLETE
        (rd_client_event manage1 .LWM2M_RD_CLIENT_EVENT_NETWORK_ERROR s)).client_state
          = .CONNECTED ∧
      (rd_client_event manage2 .LWM2M_RD_CLIENT_EVENT_REGISTRATION_COMPLETE
        (rd_client_event manage1 .LWM2M_RD_CLIENT_EVENT_NETWORK_ERROR s)).reconnect = true ∧
      (rd_client_event manage3 .LWM2M_RD_CLIENT_EVENT_BOOTSTRAP_REG_FAILURE
        (rd_client_event manage2 .LWM2M_RD_CLIENT_EVENT_REGISTRATION_COMPLETE
          (rd_client_event manage1 .LWM2M_RD_CLIENT_EVENT_NETWORK_ERROR s))).client_state
          = .NETWORK_ERROR ∧
      (rd_client_event manage3 .LWM2M_RD_CLIENT_EVENT_BOOTSTRAP_REG_FAILURE
        (rd_client_event manage2 .LWM2M_RD_CLIENT_EVENT_REGISTRATION_COMPLETE
          (rd_client_event manage1 .LWM2M_RD_CLIENT_EVENT_NETWORK_ERROR s))).reconnect
          = true ∧
      ∃ s' ops, main_loop_pass x
          (rd_client_event manage3 .LWM2M_RD_CLIENT_EVENT_BOOTSTRAP_REG_FAILURE
            (rd_client_event manage2 .LWM2M_RD_CLIENT_EVENT_REGISTRATION_COMPLETE
              (rd_client_event manage1 .LWM2M_RD_CLIENT_EVENT_NETWORK_ERROR s))) = some s' ∧
        s'.client_state = .START ∧ s'.reconnect = false ∧
        s'.trace = (rd_client_event manage3 .LWM2M_RD_CLIENT_EVENT_BOOTSTRAP_REG_FAILURE
            (rd_client_event manage2 .LWM2M_RD_CLIENT_EVENT_REGISTRATION_COMPLETE
              (rd_client_event manage1 .LWM2M_RD_CLIENT_EVENT_NETWORK_ERROR s))).trace ++
          ([.k_mutex_lock, .read .client_state, .read .client_state, .write .client_state,
            .k_sem_give, .k_mutex_unlock, .lwm2m_rd_client_stop false, .read .reconnect,
            .write .reconnect, .lte_lc_offline, .lte_lc_connect] ++ ops)) := by
  have hdisp : ∀ (manage : lwm2m_rd_client_event → lwm2m_rd_client_event)
      (client_event : lwm2m_rd_client_event) (s : Sys),
      s.reconnect = true → (rd_client_event manage client_event s).reconnect = true := by
    intro manage client_event s hrc
    by_cases hd : s.client_state = .LTE_OFFLINE ∧
        client_event ≠ .LWM2M_RD_CLIENT_EVENT_ENGINE_SUSPENDED
    · rw [rd_client_event_dropped manage client_event s hd]
      exact hrc
    · rw [(rd_client_event_effect manage client_event s hd).2.2.1, hrc]
      rfl
  refine ⟨hdisp, ?_, main_loop_pass_keeps_reconnect, ?_⟩
  · intro nw_reg_status s hrc
    rw [(lwm2m_lte_reg_handler_notify_path nw_reg_status s).2.2.2.1, hrc]
  · intro manage1 manage2 manage3 x s hs hm1 hm2 hm3 hconn
    have hd1 : ¬ (s.client_state = .LTE_OFFLINE ∧
        lwm2m_rd_client_event.LWM2M_RD_CLIENT_EVENT_NETWORK_ERROR
          ≠ .LWM2M_RD_CLIENT_EVENT_ENGINE_SUSPENDED) := fun h => hs h.1
    obtain ⟨c1, _, r1, _⟩ := rd_client_event_effect manage1
      .LWM2M_RD_CLIENT_EVENT_NETWORK_ERROR s hd1
    rw [hm1] at c1 r1
    simp only [spec_transition] at c1
    simp only [decide_True, Bool.or_true] at r1
    have hd2 : ¬ ((rd_client_event manage1 .LWM2M_RD_CLIENT_EVENT_NETWORK_ERROR s).client_state
          = .LTE_OFFLINE ∧
        lwm2m_rd_client_event.LWM2M_RD_CLIENT_EVENT_REGISTRATION_COMPLETE
          ≠ .LWM2M_RD_CLIENT_EVENT_ENGINE_SUSPENDED) := fun h => by
      rw [c1] at h
      exact absurd h.1 (by decide)
    obtain ⟨c2, _, r2, _⟩ := rd_client_event_effect manage2
      .LWM2M_RD_CLIENT_EVENT_REGISTRATION_COMPLETE _ hd2
    rw [hm2] at c2 r2
    simp only [spec_transition] at c2
    rw [r1] at r2
    simp only [Bool.true_or] at r2
    have hd3 : ¬ ((rd_client_event manage2 .LWM2M_RD_CLIENT_EVENT_REGISTRATION_COMPLETE
          (rd_client_event manage1 .LWM2M_RD_CLIENT_EVENT_NETWORK_ERROR s)).client_state
          = .LTE_OFFLINE ∧
        lwm2m_rd_client_event.LWM2M_RD_CLIENT_EVENT_BOOTSTRAP_REG_FAILURE
          ≠ .LWM2M_RD_CLIENT_EVENT_ENGINE_SUSPENDED) := fun h => by
      rw [c2] at h
      exact absurd h.1 (by decide)
    obtain ⟨c3, _, r3, _⟩ := rd_client_event_effect manage3
      .LWM2M_RD_CLIENT_EVENT_BOOTSTRAP_REG_FAILURE _ hd3
    rw [hm3] at c3 r3
    simp only [spec_transition] at c3
    rw [r2] at r3
    simp only [Bool.true_or] at r3
    obtain ⟨ops, _, heq⟩ := main_loop_pass_network_error_eq x _ c3 (fun _ => hconn)
    refine ⟨c2, r2, c3, r3, _, ops, heq, rfl, rfl, ?_⟩
    simp [r3]

/-- Witness for C25: from `CONNECTING`, with hooks that leave every event alone and the
first connect attempt succeeding. -/
theorem reconnect_cleared_only_by_network_error_witness :
    (rd_client_event id .LWM2M_RD_CLIENT_EVENT_REGISTRATION_COMPLETE
      (rd_client_event id .LWM2M_RD_CLIENT_EVENT_NETWORK_ERROR
        { boot 0 with client_state := .CONNECTING })).client_state = .CONNECTED ∧
    (rd_client_event id .LWM2M_RD_CLIENT_EVENT_REGISTRATION_COMPLETE
      (rd_client_event id .LWM2M_RD_CLIENT_EVENT_NETWORK_ERROR
        { boot 0 with client_state := .CONNECTING })).reconnect = true :=
  have h := reconnect_cleared_only_by_network_error.2.2.2 id id id
    ⟨0, 0, 0, [0], false, 60, 0, 0⟩ { boot 0 with client_state := .CONNECTING }
    (by decide) rfl rfl rfl ⟨0, by decide, by decide⟩
  ⟨h.1, h.2.1⟩

end NceLwm2m
